import Mathlib

/-!
Verification of the star_battle deductive solver core.

Shallow embedding of the Rust sources (src/): the data model (cells, grid,
handler), the zone surfer, the consistency checker, the zone enumerators,
the invariant extractor, the deduction rule set and the text parser, together
with theorems settling the specification claims about them.

Machine integers (usize) are modelled as Nat; out-of-bounds indexing, which
panics in Rust, is modelled by default values and no-op updates.  All claims
carry in-bounds hypotheses where this distinction could matter.
-/

set_option maxHeartbeats 1000000

namespace StarBattle

/-- Value of a cell of the grid (src/cell_value.rs, enum CellValue). -/
inductive CellValue where
  | Unknown : CellValue
  | Star : CellValue
  | NoStar : CellValue
deriving DecidableEq, Repr, Inhabited

/-- Coordinates of a cell, 0-based (src/line_column.rs, struct LineColumn). -/
structure LineColumn where
  line : Nat
  column : Nat
deriving DecidableEq, Repr, Inhabited

/-- A region is identified by a character (src/lib.rs, type Region). -/
abbrev Region := Char

/-- A cell of the grid (src/grid_cell.rs, struct GridCell). -/
structure GridCell where
  line_column : LineColumn
  region : Region
  value : CellValue
deriving DecidableEq, Repr, Inhabited

/-- The mutable grid state (src/grid.rs, struct Grid): dimensions and the
cells, line by line. -/
structure Grid where
  size : LineColumn
  cells : List (List GridCell)
deriving DecidableEq, Repr, Inhabited

/-- Grid::nb_lines. -/
def Grid.nb_lines (g : Grid) : Nat := g.size.line

/-- Grid::nb_columns. -/
def Grid.nb_columns (g : Grid) : Nat := g.size.column

/-- Grid::cell: the cell at the given coordinates.  Rust panics when out of
bounds; we return a default cell (whose value is Unknown). -/
def Grid.cell (g : Grid) (lc : LineColumn) : GridCell :=
  (g.cells.getD lc.line []).getD lc.column default

/-- In-place update of the value of one cell of a row
(Grid::cell_mut(...).value = v, row part). -/
def updateCellRow (column : Nat) (v : CellValue) : List GridCell → List GridCell
  | [] => []
  | c :: cs =>
    match column with
    | 0 => { c with value := v } :: cs
    | column + 1 => c :: updateCellRow column v cs

/-- In-place update of the value of one cell of the cell matrix
(Grid::cell_mut(...).value = v). -/
def updateCells (line column : Nat) (v : CellValue) :
    List (List GridCell) → List (List GridCell)
  | [] => []
  | r :: rs =>
    match line with
    | 0 => updateCellRow column v r :: rs
    | line + 1 => r :: updateCells line column v rs

/-- grid.cell_mut(lc).value = v as a functional update. -/
def Grid.setCellValue (g : Grid) (lc : LineColumn) (v : CellValue) : Grid :=
  { g with cells := updateCells lc.line lc.column v g.cells }

/-- An action on the grid (src/grid_action.rs, enum GridAction). -/
inductive GridAction where
  | SetUnknown : LineColumn → GridAction
  | SetStar : LineColumn → GridAction
  | SetNoStar : LineColumn → GridAction
deriving DecidableEq, Repr

/-- GridAction::line_column. -/
def GridAction.line_column : GridAction → LineColumn
  | .SetUnknown lc => lc
  | .SetStar lc => lc
  | .SetNoStar lc => lc

/-- GridAction::value. -/
def GridAction.value : GridAction → CellValue
  | .SetUnknown _ => .Unknown
  | .SetStar _ => .Star
  | .SetNoStar _ => .NoStar

/-- Grid::apply_action (src/grid_action.rs). -/
def Grid.apply_action (g : Grid) (a : GridAction) : Grid :=
  match a with
  | .SetUnknown lc => g.setCellValue lc .Unknown
  | .SetStar lc => g.setCellValue lc .Star
  | .SetNoStar lc => g.setCellValue lc .NoStar

/-- The immutable puzzle descriptor (src/grid_handler.rs, struct GridHandler):
dimensions, number of stars per zone, region list (sorted by ascending size
at construction) and the per-cell region map. -/
structure GridHandler where
  size : LineColumn
  nb_stars : Nat
  regions : List Region
  cells_region : List (List Region)
deriving Repr

/-- GridHandler::nb_lines. -/
def GridHandler.nb_lines (h : GridHandler) : Nat := h.size.line

/-- GridHandler::nb_columns. -/
def GridHandler.nb_columns (h : GridHandler) : Nat := h.size.column

/-- GridHandler::cell_region. -/
def GridHandler.cell_region (h : GridHandler) (lc : LineColumn) : Region :=
  (h.cells_region.getD lc.line []).getD lc.column default

/-- GridHandler::adjacent_cells: the Moore neighbourhood clipped to the grid,
in the exact push order of the source (N, NW, NE, W, SW, S, SE, E). -/
def GridHandler.adjacent_cells (h : GridHandler) (lc : LineColumn) : List LineColumn :=
  let line := lc.line
  let column := lc.column
  (if 0 < line then
    [LineColumn.mk (line - 1) column] ++
      (if 0 < column then [LineColumn.mk (line - 1) (column - 1)] else []) ++
      (if column < h.nb_columns - 1 then [LineColumn.mk (line - 1) (column + 1)] else [])
  else []) ++
  (if 0 < column then
    [LineColumn.mk line (column - 1)] ++
      (if line < h.nb_lines - 1 then [LineColumn.mk (line + 1) (column - 1)] else [])
  else []) ++
  (if line < h.nb_lines - 1 then
    [LineColumn.mk (line + 1) column] ++
      (if column < h.nb_columns - 1 then [LineColumn.mk (line + 1) (column + 1)] else [])
  else []) ++
  (if column < h.nb_columns - 1 then [LineColumn.mk line (column + 1)] else [])

/-- Grid::from(&GridHandler) (src/grid.rs): the all-Unknown grid of a
descriptor. -/
def Grid.fromHandler (h : GridHandler) : Grid :=
  { size := LineColumn.mk h.nb_lines h.nb_columns
    cells := (List.range h.nb_lines).map fun line =>
      (List.range h.nb_columns).map fun column =>
        { line_column := LineColumn.mk line column
          region := h.cell_region (LineColumn.mk line column)
          value := CellValue.Unknown } }

/-- A zone descriptor (src/grid_surfer.rs, enum GridSurfer).  The Rust
RangeInclusive bounds of Lines and Columns are two explicit Nat fields. -/
inductive GridSurfer where
  | AllCells : GridSurfer
  | Region : Region → GridSurfer
  | Adjacent : LineColumn → GridSurfer
  | Line : Nat → GridSurfer
  | Column : Nat → GridSurfer
  | Lines : Nat → Nat → GridSurfer
  | Columns : Nat → Nat → GridSurfer
deriving DecidableEq, Repr

/-- The row-major enumeration of all coordinates of the grid (the nested
line/column loops of GridHandler::surfer). -/
def GridHandler.rowMajorCoords (h : GridHandler) : List LineColumn :=
  (List.range h.nb_lines).flatMap fun line =>
    (List.range h.nb_columns).map fun column => LineColumn.mk line column

/-- The cell_is_matching test of GridHandler::surfer (src/grid_surfer.rs). -/
def cellIsMatching (h : GridHandler) (g : Grid) (s : GridSurfer) (lc : LineColumn) : Bool :=
  match s with
  | .AllCells => true
  | .Region region => decide ((g.cell lc).region = region)
  | .Adjacent center =>
      (h.adjacent_cells center).any fun c =>
        decide (c.line = lc.line) && decide (c.column = lc.column)
  | .Line selectLine => decide (selectLine = lc.line)
  | .Column selectColumn => decide (selectColumn = lc.column)
  | .Lines a b => decide (a ≤ lc.line) && decide (lc.line ≤ b)
  | .Columns a b => decide (a ≤ lc.column) && decide (lc.column ≤ b)

/-- GridHandler::surfer (src/grid_surfer.rs): the matching coordinates in
row-major order. -/
def GridHandler.surfer (h : GridHandler) (g : Grid) (s : GridSurfer) : List LineColumn :=
  h.rowMajorCoords.filter fun lc => cellIsMatching h g s lc

/-- GridHandler::surfer_cells_with_value_count. -/
def GridHandler.surfer_cells_with_value_count (h : GridHandler) (g : Grid)
    (s : GridSurfer) (v : CellValue) : Nat :=
  ((h.surfer g s).filter fun lc => decide ((g.cell lc).value = v)).length

/-- A consistency error (src/grid_bad_ruler.rs, enum BadRuleError). -/
inductive BadRuleError where
  | StarAdjacent : LineColumn → LineColumn → BadRuleError
  | TooManyStarsInZone : GridSurfer → BadRuleError
  | NotEnoughStarsInZone : GridSurfer → BadRuleError
deriving DecidableEq, Repr

/-- The scan of check_no_star_adjacent over a coordinate list: the first Star
cell having a Star in its Moore neighbourhood yields the error. -/
def checkNoStarAdjacentList (h : GridHandler) (g : Grid) :
    List LineColumn → Except BadRuleError Unit
  | [] => .ok ()
  | lc :: rest =>
    if (g.cell lc).value = CellValue.Star then
      match (h.adjacent_cells lc).find? (fun a => decide ((g.cell a).value = CellValue.Star)) with
      | some a => .error (.StarAdjacent lc a)
      | none => checkNoStarAdjacentList h g rest
    else checkNoStarAdjacentList h g rest

/-- check_no_star_adjacent (src/grid_bad_ruler.rs). -/
def check_no_star_adjacent (h : GridHandler) (g : Grid) : Except BadRuleError Unit :=
  checkNoStarAdjacentList h g (h.surfer g .AllCells)

/-- check_zone (src/grid_bad_ruler.rs): count Star and Unknown cells of the
zone, then compare with the required number of stars. -/
def check_zone (h : GridHandler) (g : Grid) (s : GridSurfer) : Except BadRuleError Unit :=
  let counts := (h.surfer g s).foldl
    (fun (p : Nat × Nat) lc =>
      match (g.cell lc).value with
      | .Star => (p.1 + 1, p.2)
      | .Unknown => (p.1, p.2 + 1)
      | .NoStar => p)
    (0, 0)
  if h.nb_stars < counts.1 then .error (.TooManyStarsInZone s)
  else if counts.1 + counts.2 < h.nb_stars then .error (.NotEnoughStarsInZone s)
  else .ok ()

/-- One of the zone loops of check_bad_rules, with its early error return. -/
def checkZonesList (h : GridHandler) (g : Grid) :
    List GridSurfer → Except BadRuleError Unit
  | [] => .ok ()
  | s :: rest =>
    match check_zone h g s with
    | .error e => .error e
    | .ok _ => checkZonesList h g rest

/-- check_bad_rules (src/grid_bad_ruler.rs): adjacency scan, then the region,
line and column zones in that order, failing fast. -/
def check_bad_rules (h : GridHandler) (g : Grid) : Except BadRuleError Unit :=
  match check_no_star_adjacent h g with
  | .error e => .error e
  | .ok _ =>
    match checkZonesList h g (h.regions.map GridSurfer.Region) with
    | .error e => .error e
    | .ok _ =>
      match checkZonesList h g ((List.range h.nb_lines).map GridSurfer.Line) with
      | .error e => .error e
      | .ok _ => checkZonesList h g ((List.range h.nb_columns).map GridSurfer.Column)

/-- GridHandler::is_done (src/grid_handler.rs): no Unknown cell in the grid
and check_bad_rules succeeds. -/
def GridHandler.is_done (h : GridHandler) (g : Grid) : Bool :=
  ((List.range h.nb_lines).all fun line =>
    (List.range h.nb_columns).all fun column =>
      !(decide ((g.cell (LineColumn.mk line column)).value = CellValue.Unknown)))
  && (match check_bad_rules h g with | .ok _ => true | .error _ => false)

/-- The variant lattice of the invariant extractor
(src/grid_good_ruler/invariant.rs, enum Variant). -/
inductive Variant where
  | Init : Variant
  | Star : Variant
  | NoStar : Variant
  | Unknown : Variant
  | Variable : Variant
deriving DecidableEq, Repr

/-- Variant::combine (src/grid_good_ruler/invariant.rs), with the match arms
in source order. -/
def Variant.combine : Variant → Variant → Variant
  | .Init, other => other
  | other, .Init => other
  | .Star, .Star => .Star
  | .NoStar, .NoStar => .NoStar
  | .Unknown, .Unknown => .Unknown
  | _, _ => .Variable

/-- Grid::apply_good_rule applies every action of the list in order; this is
the shared action-list application (src/grid_good_ruler/good_rule.rs). -/
def applyActions (g : Grid) (actions : List GridAction) : Grid :=
  actions.foldl Grid.apply_action g

/-- The 5x5 test descriptor of the repository (grid ABBBB / ABBBB / CCBBB /
DDDDD / DEEED with one star per zone); regions listed by ascending size as
GridHandler::new sorts them. -/
def hTest : GridHandler :=
  { size := LineColumn.mk 5 5
    nb_stars := 1
    regions := ['A', 'C', 'E', 'D', 'B']
    cells_region :=
      [['A', 'B', 'B', 'B', 'B'],
       ['A', 'B', 'B', 'B', 'B'],
       ['C', 'C', 'B', 'B', 'B'],
       ['D', 'D', 'D', 'D', 'D'],
       ['D', 'E', 'E', 'E', 'D']] }

/-- A fully solved grid for the 5x5 test descriptor: stars at A1, D2, B3,
E4, C5 (0-based (0,0), (1,3), (2,1), (3,4), (4,2)). -/
def gSolved : Grid :=
  applyActions (Grid.fromHandler hTest)
    ((hTest.rowMajorCoords.map GridAction.SetNoStar) ++
      [.SetStar (LineColumn.mk 0 0), .SetStar (LineColumn.mk 1 3),
       .SetStar (LineColumn.mk 2 1), .SetStar (LineColumn.mk 3 4),
       .SetStar (LineColumn.mk 4 2)])

instance : DecidableEq (Except BadRuleError Unit) := fun a b =>
  match a, b with
  | .ok x, .ok y => .isTrue (by cases x; cases y; rfl)
  | .error x, .error y => if h : x = y then .isTrue (by rw [h]) else .isFalse (by simp [h])
  | .ok _, .error _ => .isFalse (by simp)
  | .error _, .ok _ => .isFalse (by simp)

/-- usize::MAX, with usize modelled as a 64-bit machine integer. -/
def usizeMax : Nat := 2 ^ 64 - 1

/-- The multiplication loop of combinaisons_count
(src/grid_good_ruler/rule_zone_possible_stars.rs and
rule_generic_possible_stars.rs, identical in both files); release-mode usize
multiplication wraps, hence the mod 2^64. -/
def combLoop : Nat → Nat → Nat → Nat
  | acc, _, 0 => acc
  | acc, cells, left + 1 => combLoop (acc * cells % 2 ^ 64) (cells - 1) left

/-- combinaisons_count: the zone-selection cost function.  usize::MAX when
the zone already has all its stars, 0 when there are no more Unknown cells
than stars left to place, otherwise the product of
unknowns * (unknowns - 1) * ... over the stars left to place. -/
def combinaisons_count (h : GridHandler) (g : Grid) (s : GridSurfer) (nb_stars : Nat) : Nat :=
  let cur_nb_stars := h.surfer_cells_with_value_count g s CellValue.Star
  if nb_stars ≤ cur_nb_stars then usizeMax
  else
    let nb_stars_left := nb_stars - cur_nb_stars
    let nb_cells := h.surfer_cells_with_value_count g s CellValue.Unknown
    if nb_cells ≤ nb_stars_left then 0
    else combLoop 1 nb_cells nb_stars_left

/-- count_ones (src/grid_good_ruler/collector.rs): popcount by repeated
halving; the extra first argument is fuel for the halving loop (any value
at least the bit length, here the number itself, is faithful). -/
def countOnesAux : Nat → Nat → Nat
  | 0, _ => 0
  | fuel + 1, n => if n = 0 then 0 else n % 2 + countOnesAux fuel (n / 2)

/-- count_ones (src/grid_good_ruler/collector.rs). -/
def countOnes (n : Nat) : Nat := countOnesAux n n

/-- The star count of a zone (the filter-count at the head of
Collector::collect_recursive_possible_grids). -/
def zoneStarCount (g : Grid) (zone : List LineColumn) : Nat :=
  (zone.filter fun lc => decide ((g.cell lc).value = CellValue.Star)).length

/-- Collector::first_possible_line_column_for_a_star: the first Unknown zone
cell with no Star in its Moore neighbourhood. -/
def firstPossibleStarCell (h : GridHandler) (g : Grid) (zone : List LineColumn) :
    Option LineColumn :=
  zone.find? fun lc =>
    decide ((g.cell lc).value = CellValue.Unknown) &&
      decide (((h.adjacent_cells lc).filter fun a =>
        decide ((g.cell a).value = CellValue.Star)).length = 0)

/-- Collector::set_star: place a Star and force every currently Unknown Moore
neighbour to NoStar (neighbour values are read from the original grid, as in
the source; the Star neighbour branch, a panic in Rust, cannot occur for the
pivots the enumerator selects and is modelled as a no-op). -/
def setStarWithNeighbors (h : GridHandler) (g : Grid) (lc : LineColumn) : Grid :=
  (h.adjacent_cells lc).foldl
    (fun acc a =>
      match (g.cell a).value with
      | .Unknown => acc.setCellValue a .NoStar
      | _ => acc)
    (g.setCellValue lc .Star)

/-- The completion fill of the enumerator base case: every still-Unknown zone
cell becomes NoStar. -/
def fillZoneNoStar (zone : List LineColumn) (g : Grid) : Grid :=
  zone.foldl
    (fun acc lc =>
      if (acc.cell lc).value = CellValue.Unknown then acc.setCellValue lc .NoStar else acc)
    g

/-- Total number of Unknown cells of the grid (used to size the recursion
fuel of the recursive collector). -/
def Grid.unknownCountAll (g : Grid) : Nat :=
  (g.cells.map fun row =>
    (row.filter fun c => decide (c.value = CellValue.Unknown)).length).sum

/-- Collector::collect_recursive_possible_grids
(src/grid_good_ruler/collector.rs) and the identical
RecursiveCollector::collect_possible_grids
(src/grid_good_ruler/rule_zone_possible_stars.rs), with explicit fuel: when
the zone has exactly the required stars, emit the current grid with its zone
completed by NoStar; otherwise branch on the first possible pivot (Star with
neighbourhood forced, kept only if consistent; then NoStar). -/
def collectRecAux (h : GridHandler) (zone : List LineColumn) (nb_stars : Nat) :
    Nat → Grid → List Grid
  | 0, _ => []
  | fuel + 1, g =>
    if zoneStarCount g zone = nb_stars then
      [fillZoneNoStar zone g]
    else
      match firstPossibleStarCell h g zone with
      | none => []
      | some lc =>
        (if check_bad_rules h (setStarWithNeighbors h g lc) = .ok () then
          collectRecAux h zone nb_stars fuel (setStarWithNeighbors h g lc)
        else []) ++
        collectRecAux h zone nb_stars fuel (g.setCellValue lc .NoStar)

/-- The recursive enumerator with the fuel that covers every Rust-reachable
run: each recursive call strictly decreases the number of Unknown cells. -/
def collect_recursive_possible_grids (h : GridHandler) (g : Grid)
    (zone : List LineColumn) (nb_stars : Nat) : List Grid :=
  collectRecAux h zone nb_stars (g.unknownCountAll + 1) g

/-- Collector::collect_possible_grids (src/grid_good_ruler/collector.rs):
bitmask enumeration of the ways to place the missing stars on the Unknown
cells of the zone, keeping the consistent grids.  The Rust assertion that
the missing stars fit in the Unknown cells is vacuous here: a mask below
2^u never has more than u bits set. -/
def collect_possible_grids (h : GridHandler) (g : Grid)
    (zone : List LineColumn) (nb_stars : Nat) : List Grid :=
  let cur_nb_stars := zoneStarCount g zone
  let unknowns := zone.filter fun lc => decide ((g.cell lc).value = CellValue.Unknown)
  if nb_stars ≤ cur_nb_stars then []
  else
    let nb_to_do := nb_stars - cur_nb_stars
    ((List.range (2 ^ unknowns.length)).drop 1).filterMap fun comb =>
      if countOnes comb = nb_to_do then
        let ng := unknowns.enum.foldl
          (fun (acc : Grid) (p : Nat × LineColumn) =>
            acc.setCellValue p.2 (if comb.testBit p.1 then CellValue.Star else CellValue.NoStar))
          g
        if check_bad_rules h ng = .ok () then some ng else none
      else none

/-- The per-grid observation fed to Variant.combine. -/
def toVariant : CellValue → Variant
  | .Star => .Star
  | .NoStar => .NoStar
  | .Unknown => .Unknown

/-- Variant::check_for_invariants (src/grid_good_ruler/invariant.rs): fold
the observations of every possible grid cell by cell, then keep the cells
whose combined signal is Star or NoStar. -/
def check_for_invariants (h : GridHandler) (g : Grid) (possible_grids : List Grid) :
    List GridAction :=
  let cells := (h.surfer g .AllCells).filter fun lc =>
    decide ((g.cell lc).value = CellValue.Unknown)
  let variants := possible_grids.foldl
    (fun (vs : List Variant) pg =>
      List.zipWith (fun lc v => v.combine (toVariant (pg.cell lc).value)) cells vs)
    (cells.map fun _ => Variant.Init)
  (cells.zip variants).filterMap fun p =>
    match p.2 with
    | .Star => some (.SetStar p.1)
    | .NoStar => some (.SetNoStar p.1)
    | _ => none

/-- The always-adjacent-to-star lattice
(src/grid_good_ruler/star_adjacent.rs, enum StarAdjacent). -/
inductive StarAdjacentState where
  | Init : StarAdjacentState
  | Always : StarAdjacentState
  | Variable : StarAdjacentState
deriving DecidableEq, Repr

/-- StarAdjacent::check_for_star_adjacents
(src/grid_good_ruler/star_adjacent.rs): the Unknown cells of the initial grid
that are never a Star and always have a Star neighbour in every possible grid
are forced to NoStar. -/
def check_for_star_adjacents (h : GridHandler) (g : Grid) (possible_grids : List Grid) :
    List GridAction :=
  let cells := (h.surfer g .AllCells).filter fun lc =>
    decide ((g.cell lc).value = CellValue.Unknown)
  let states := possible_grids.foldl
    (fun (vs : List StarAdjacentState) pg =>
      List.zipWith (fun lc v =>
        if (pg.cell lc).value = CellValue.Star then StarAdjacentState.Variable
        else if v ≠ StarAdjacentState.Variable then
          (if (h.adjacent_cells lc).any fun a => decide ((pg.cell a).value = CellValue.Star)
            then StarAdjacentState.Always else StarAdjacentState.Variable)
        else v) cells vs)
    (cells.map fun _ => StarAdjacentState.Init)
  (cells.zip states).filterMap fun p =>
    if p.2 = StarAdjacentState.Always then some (.SetNoStar p.1) else none

/-- The C8 counterexample grid: the single Unknown cell left in region A. -/
def gC8 : Grid := (Grid.fromHandler hTest).apply_action (.SetNoStar (LineColumn.mk 0 0))

/-- The C1 counterexample grid: one star at (4,0); region D then already has
its star but keeps Unknown cells. -/
def gC1 : Grid := (Grid.fromHandler hTest).apply_action (.SetStar (LineColumn.mk 4 0))

/-- Row-major (lexicographic) strict order on coordinates. -/
def rowMajorLt (a b : LineColumn) : Prop :=
  a.line < b.line ∨ (a.line = b.line ∧ a.column < b.column)

instance (a b : LineColumn) : Decidable (rowMajorLt a b) := by
  unfold rowMajorLt
  infer_instance

/-- Specification predicate for C3: no Star cell of the grid has a Star in
its Moore neighbourhood. -/
def adjacencyOk (h : GridHandler) (g : Grid) : Prop :=
  ∀ lc ∈ h.rowMajorCoords, (g.cell lc).value = CellValue.Star →
    ∀ a ∈ h.adjacent_cells lc, ¬((g.cell a).value = CellValue.Star)

instance (h : GridHandler) (g : Grid) : Decidable (adjacencyOk h g) := by
  unfold adjacencyOk
  infer_instance

/-- Specification predicate for C3: with s the Star count and u the Unknown
count of the zone, s does not exceed the target and s + u reaches it. -/
def zoneCountsOk (h : GridHandler) (g : Grid) (z : GridSurfer) : Prop :=
  h.surfer_cells_with_value_count g z CellValue.Star ≤ h.nb_stars ∧
    h.nb_stars ≤ h.surfer_cells_with_value_count g z CellValue.Star +
      h.surfer_cells_with_value_count g z CellValue.Unknown

instance (h : GridHandler) (g : Grid) (z : GridSurfer) : Decidable (zoneCountsOk h g z) := by
  unfold zoneCountsOk
  infer_instance

/-- The zones of check_bad_rules in checking order: every region, then every
line, then every column. -/
def zonesOrder (h : GridHandler) : List GridSurfer :=
  h.regions.map GridSurfer.Region ++ (List.range h.nb_lines).map GridSurfer.Line ++
    (List.range h.nb_columns).map GridSurfer.Column

/-- A deduction rule (src/grid_good_ruler/good_rule.rs, enum GoodRule). -/
inductive GoodRule where
  | NoStarAdjacentToStar : LineColumn → List GridAction → GoodRule
  | ZoneNoStarCompleted : GridSurfer → List GridAction → GoodRule
  | ZoneExclusions : List Region → GridSurfer → List GridAction → GoodRule
  | ZoneCombinations : List Region → GridSurfer → List GridAction → GoodRule
  | ZoneStarCompleted : GridSurfer → List GridAction → GoodRule
  | InvariantWithZone : GridSurfer → List GridAction → GoodRule
deriving DecidableEq, Repr

/-- The action list carried by a deduction (the common payload matched by
Grid::apply_good_rule). -/
def GoodRule.actions : GoodRule → List GridAction
  | .NoStarAdjacentToStar _ acts => acts
  | .ZoneNoStarCompleted _ acts => acts
  | .ZoneExclusions _ _ acts => acts
  | .ZoneCombinations _ _ acts => acts
  | .ZoneStarCompleted _ acts => acts
  | .InvariantWithZone _ acts => acts

/-- Grid::apply_good_rule (src/grid_good_ruler/good_rule.rs): apply every
action of the deduction in order. -/
def Grid.apply_good_rule (g : Grid) (r : GoodRule) : Grid :=
  applyActions g r.actions

/-- rule_no_star_adjacent_to_star
(src/grid_good_ruler/rule_no_star_adjacent_to_star.rs): the first Star with
Unknown neighbours forces those neighbours to NoStar. -/
def rule_no_star_adjacent_to_star (h : GridHandler) (g : Grid) : Option GoodRule :=
  (h.surfer g .AllCells).findSome? fun lc =>
    if (g.cell lc).value = CellValue.Star then
      let unknown_adjacent_cells :=
        ((h.adjacent_cells lc).filter fun a =>
          decide ((g.cell a).value = CellValue.Unknown)).map GridAction.SetNoStar
      if unknown_adjacent_cells.isEmpty then none
      else some (.NoStarAdjacentToStar lc unknown_adjacent_cells)
    else none

/-- The counting loop of try_value_completed
(src/grid_good_ruler/rule_value_completed.rs): stars, unknown count and the
Unknown coordinates of a zone in order. -/
def countsAndUnknowns (g : Grid) (l : List LineColumn) : Nat × Nat × List LineColumn :=
  l.foldl
    (fun (acc : Nat × Nat × List LineColumn) lc =>
      match (g.cell lc).value with
      | .Star => (acc.1 + 1, acc.2.1, acc.2.2)
      | .NoStar => acc
      | .Unknown => (acc.1, acc.2.1 + 1, acc.2.2 ++ [lc]))
    (0, 0, [])

/-- try_value_completed (src/grid_good_ruler/rule_value_completed.rs). -/
def try_value_completed (h : GridHandler) (g : Grid) (gs : GridSurfer) (nb_stars : Nat) :
    Option GoodRule :=
  let acc := countsAndUnknowns g (h.surfer g gs)
  if 0 < acc.2.1 then
    if acc.1 = nb_stars then
      some (.ZoneNoStarCompleted gs (acc.2.2.map GridAction.SetNoStar))
    else if acc.2.1 = nb_stars - acc.1 then
      some (.ZoneStarCompleted gs (acc.2.2.map GridAction.SetStar))
    else none
  else none

/-- rule_value_completed (src/grid_good_ruler/rule_value_completed.rs): scan
regions then lines then columns for a zone completed in stars or in
non-stars. -/
def rule_value_completed (h : GridHandler) (g : Grid) : Option GoodRule :=
  (h.regions.map GridSurfer.Region ++ (List.range h.nb_lines).map GridSurfer.Line ++
    (List.range h.nb_columns).map GridSurfer.Column).findSome? fun z =>
      try_value_completed h g z h.nb_stars

/-- The region-collecting scan of rule_region_more_generic_exclusions
(src/grid_good_ruler/rule_region_exclusions.rs): walk the span cells; abort
on a Star; collect the distinct regions of Unknown cells, aborting beyond n
regions. -/
def exclusionsScanRegions (g : Grid) (n : Nat) :
    List LineColumn → List Region → Option (List Region)
  | [], acc => some acc
  | lc :: rest, acc =>
    match (g.cell lc).value with
    | .Star => none
    | .NoStar => exclusionsScanRegions g n rest acc
    | .Unknown =>
      if (g.cell lc).region ∈ acc then exclusionsScanRegions g n rest acc
      else if n < acc.length + 1 then none
      else exclusionsScanRegions g n rest (acc ++ [(g.cell lc).region])

/-- rule_region_more_generic_exclusions
(src/grid_good_ruler/rule_region_exclusions.rs). -/
def rule_region_more_generic_exclusions (h : GridHandler) (g : Grid) (n : Nat)
    (gs : GridSurfer) : Option (List Region × List LineColumn) :=
  let surfer := h.surfer g gs
  match exclusionsScanRegions g n surfer [] with
  | none => none
  | some vec_regions =>
    let candidates := (h.surfer g .AllCells).filter fun lc =>
      decide (lc ∉ surfer) && decide ((g.cell lc).value = CellValue.Unknown) &&
        decide ((g.cell lc).region ∈ vec_regions)
    if candidates.isEmpty then none else some (vec_regions, candidates)

/-- rule_region_generic_exclusions
(src/grid_good_ruler/rule_region_exclusions.rs): try every n-line span, then
every n-column span. -/
def rule_region_generic_exclusions (h : GridHandler) (g : Grid) (n : Nat) :
    Option GoodRule :=
  match (List.range (h.nb_lines - n + 1)).findSome? (fun line =>
    match rule_region_more_generic_exclusions h g n (.Lines line (line + n - 1)) with
    | none => none
    | some p =>
      some (GoodRule.ZoneExclusions p.1 (.Lines line (line + n - 1))
        (p.2.map GridAction.SetNoStar))) with
  | some r => some r
  | none =>
    (List.range (h.nb_columns - n + 1)).findSome? fun column =>
      match rule_region_more_generic_exclusions h g n (.Columns column (column + n - 1)) with
      | none => none
      | some p =>
        some (GoodRule.ZoneExclusions p.1 (.Columns column (column + n - 1))
          (p.2.map GridAction.SetNoStar))

def rule_region_1_exclusions (h : GridHandler) (g : Grid) : Option GoodRule :=
  rule_region_generic_exclusions h g 1

def rule_region_2_exclusions (h : GridHandler) (g : Grid) : Option GoodRule :=
  rule_region_generic_exclusions h g 2

def rule_region_3_exclusions (h : GridHandler) (g : Grid) : Option GoodRule :=
  rule_region_generic_exclusions h g 3

def rule_region_4_exclusions (h : GridHandler) (g : Grid) : Option GoodRule :=
  rule_region_generic_exclusions h g 4

/-- The n-subset enumeration of combine::from_vec_at (external crate used by
src/grid_good_ruler/rule_region_combinations.rs); its enumeration order is
unspecified, modelled by sublistsLen. -/
def combineFromVecAt (l : List Region) (n : Nat) : List (List Region) :=
  List.sublistsLen n l

/-- The bounding box fold of rule_region_generic_combinations: running
min/max line and column of the cells of the chosen regions, from the
(usize::MAX, 0, usize::MAX, 0) start. -/
def combinationsBox (g : Grid) (all_cells : List LineColumn) (vec_regions : List Region) :
    Nat × Nat × Nat × Nat :=
  all_cells.foldl
    (fun (acc : Nat × Nat × Nat × Nat) lc =>
      if (g.cell lc).region ∈ vec_regions then
        (min acc.1 (g.cell lc).line_column.line, max acc.2.1 (g.cell lc).line_column.line,
          min acc.2.2.1 (g.cell lc).line_column.column,
          max acc.2.2.2 (g.cell lc).line_column.column)
      else acc)
    (usizeMax, 0, usizeMax, 0)

/-- The candidate block shared by the two span branches of
rule_region_generic_combinations: the Unknown cells of the span that belong
to none of the chosen regions. -/
def combinationsBranch (h : GridHandler) (g : Grid) (vec_regions : List Region)
    (gsurf : GridSurfer) : Option GoodRule :=
  let candidates := (h.surfer g gsurf).filter fun lc =>
    decide ((g.cell lc).value = CellValue.Unknown) &&
      decide ((g.cell lc).region ∉ vec_regions)
  if candidates.isEmpty then none
  else some (.ZoneCombinations vec_regions gsurf (candidates.map GridAction.SetNoStar))

/-- rule_region_generic_combinations
(src/grid_good_ruler/rule_region_combinations.rs): an n-subset of regions
whose bounding box is exactly n lines (or columns) forces the Unknown cells
of other regions inside those lines (or columns) to NoStar. -/
def rule_region_generic_combinations (h : GridHandler) (g : Grid) (n : Nat) :
    Option GoodRule :=
  (combineFromVecAt h.regions n).findSome? fun vec_regions =>
    let box := combinationsBox g (h.surfer g .AllCells) vec_regions
    match (if box.2.1 - box.1 + 1 = n then
        combinationsBranch h g vec_regions (.Lines box.1 box.2.1)
      else none) with
    | some r => some r
    | none =>
      if box.2.2.2 - box.2.2.1 + 1 = n then
        combinationsBranch h g vec_regions (.Columns box.2.2.1 box.2.2.2)
      else none

def rule_region_1_combinations (h : GridHandler) (g : Grid) : Option GoodRule :=
  rule_region_generic_combinations h g 1

def rule_region_2_combinations (h : GridHandler) (g : Grid) : Option GoodRule :=
  rule_region_generic_combinations h g 2

def rule_region_3_combinations (h : GridHandler) (g : Grid) : Option GoodRule :=
  rule_region_generic_combinations h g 3

def rule_region_4_combinations (h : GridHandler) (g : Grid) : Option GoodRule :=
  rule_region_generic_combinations h g 4

/-- The deduplicating merge of invariants and star-adjacent actions
(try_star_complete in src/grid_good_ruler/rule_region_possible_stars.rs). -/
def mergeDedup (invariants star_adjacents : List GridAction) : List GridAction :=
  star_adjacents.foldl (fun inv a => if a ∈ inv then inv else inv ++ [a]) invariants

/-- try_star_complete (src/grid_good_ruler/rule_region_possible_stars.rs):
bitmask-collect the possible grids, extract invariants, merge the
always-adjacent-to-star actions, and report the count of possible grids. -/
def try_star_complete_region (h : GridHandler) (g : Grid) (gs : GridSurfer)
    (nb_stars : Nat) : List GridAction × Nat :=
  let surfer := h.surfer g gs
  let grids := collect_possible_grids h g surfer nb_stars
  (mergeDedup (check_for_invariants h g grids) (check_for_star_adjacents h g grids),
    grids.length)

/-- The BestCollector update of rule_region_possible_stars: keep the first
applicable zone, preferring strictly fewer possible grids. -/
def bestCollectorStep (best : Option (GridSurfer × Nat × List GridAction))
    (gsurf : GridSurfer) (nb : Nat) (acts : List GridAction) :
    Option (GridSurfer × Nat × List GridAction) :=
  if acts.isEmpty then best
  else
    match best with
    | none => some (gsurf, nb, acts)
    | some b => if nb < b.2.1 then some (gsurf, nb, acts) else some b

/-- rule_region_possible_stars
(src/grid_good_ruler/rule_region_possible_stars.rs). -/
def rule_region_possible_stars (h : GridHandler) (g : Grid) : Option GoodRule :=
  match h.regions.foldl
    (fun best region =>
      let r := try_star_complete_region h g (.Region region) h.nb_stars
      bestCollectorStep best (.Region region) r.2 r.1)
    none with
  | some b => some (.InvariantWithZone b.1 b.2.2)
  | none => none

/-- try_star_complete (src/grid_good_ruler/rule_zone_possible_stars.rs):
recursive collection and invariant extraction only. -/
def try_star_complete_zone (h : GridHandler) (g : Grid) (gs : GridSurfer)
    (nb_stars : Nat) : List GridAction :=
  check_for_invariants h g (collect_recursive_possible_grids h g (h.surfer g gs) nb_stars)

/-- The zone families examined by rule_possible_stars
(src/grid_good_ruler/rule_zone_possible_stars.rs, enum ZoneToExamine). -/
inductive ZoneToExamine where
  | Region : ZoneToExamine
  | LineAndColumn : ZoneToExamine
  | MultipleLinesAndColumns : Nat → ZoneToExamine
deriving DecidableEq, Repr

/-- The zone list with star targets and combination counts built by
rule_possible_stars.  The source implements the n = 2 span case; the n = 3
and n = 4 span cases are declared and wired in good_rule.rs but their bodies
are missing from src (a todo), so they are modelled from the spec (section
4.7, rows n-p: contiguous spans of n lines or columns with n times K
stars), mirroring the n = 2 code. -/
def zonesFor (h : GridHandler) (g : Grid) (zt : ZoneToExamine) :
    List (GridSurfer × Nat × Nat) :=
  match zt with
  | .Region =>
    h.regions.map fun r =>
      (GridSurfer.Region r, h.nb_stars, combinaisons_count h g (.Region r) h.nb_stars)
  | .LineAndColumn =>
    ((List.range h.nb_lines).map fun l =>
      (GridSurfer.Line l, h.nb_stars, combinaisons_count h g (.Line l) h.nb_stars)) ++
    ((List.range h.nb_columns).map fun c =>
      (GridSurfer.Column c, h.nb_stars, combinaisons_count h g (.Column c) h.nb_stars))
  | .MultipleLinesAndColumns n =>
    ((List.range (h.nb_lines - (n - 1))).map fun l =>
      (GridSurfer.Lines l (l + n - 1), n * h.nb_stars,
        combinaisons_count h g (.Lines l (l + n - 1)) (n * h.nb_stars))) ++
    ((List.range (h.nb_columns - (n - 1))).map fun c =>
      (GridSurfer.Columns c (c + n - 1), n * h.nb_stars,
        combinaisons_count h g (.Columns c (c + n - 1)) (n * h.nb_stars)))

/-- Stable insertion step of the sort_by over combination counts: the new
element lands after every element with a smaller or equal count. -/
def insertByCount (x : GridSurfer × Nat × Nat) :
    List (GridSurfer × Nat × Nat) → List (GridSurfer × Nat × Nat)
  | [] => [x]
  | y :: ys => if y.2.2 ≤ x.2.2 then y :: insertByCount x ys else x :: y :: ys

/-- The stable ascending sort of zones by combination count
(Vec::sort_by in rule_possible_stars). -/
def stableSortByCount (l : List (GridSurfer × Nat × Nat)) :
    List (GridSurfer × Nat × Nat) :=
  l.foldl (fun acc x => insertByCount x acc) []

/-- rule_possible_stars (src/grid_good_ruler/rule_zone_possible_stars.rs):
examine the zones in ascending combination count and return the first with
a non-empty invariant list. -/
def rule_possible_stars (h : GridHandler) (g : Grid) (zt : ZoneToExamine) :
    Option GoodRule :=
  (stableSortByCount (zonesFor h g zt)).findSome? fun z =>
    let acts := try_star_complete_zone h g z.1 z.2.1
    if acts.isEmpty then none else some (.InvariantWithZone z.1 acts)

def rule_region_recursive_possible_stars (h : GridHandler) (g : Grid) : Option GoodRule :=
  rule_possible_stars h g .Region

def rule_line_column_recursive_possible_stars (h : GridHandler) (g : Grid) :
    Option GoodRule :=
  rule_possible_stars h g .LineAndColumn

def rule_multi_2_lines_columns_recursive_possible_stars (h : GridHandler) (g : Grid) :
    Option GoodRule :=
  rule_possible_stars h g (.MultipleLinesAndColumns 2)

/-- Modelled from the spec: rule_multi_3_lines_columns_recursive_possible_stars
is imported and wired in good_rule.rs but missing from src; per section 4.7
row o, spans of 3 lines or columns with 3 K stars. -/
def rule_multi_3_lines_columns_recursive_possible_stars (h : GridHandler) (g : Grid) :
    Option GoodRule :=
  rule_possible_stars h g (.MultipleLinesAndColumns 3)

/-- Modelled from the spec: rule_multi_4_lines_columns_recursive_possible_stars
is imported and wired in good_rule.rs but missing from src; per section 4.7
row p, spans of 4 lines or columns with 4 K stars. -/
def rule_multi_4_lines_columns_recursive_possible_stars (h : GridHandler) (g : Grid) :
    Option GoodRule :=
  rule_possible_stars h g (.MultipleLinesAndColumns 4)

/-- The fixed rule sequence of get_good_rule
(src/grid_good_ruler/good_rule.rs, the array in the for loop). -/
def ruleList : List (GridHandler → Grid → Option GoodRule) :=
  [rule_no_star_adjacent_to_star,
   rule_value_completed,
   rule_region_1_exclusions,
   rule_region_1_combinations,
   rule_region_possible_stars,
   rule_region_2_exclusions,
   rule_region_2_combinations,
   rule_region_recursive_possible_stars,
   rule_region_3_exclusions,
   rule_region_3_combinations,
   rule_line_column_recursive_possible_stars,
   rule_region_4_exclusions,
   rule_region_4_combinations,
   rule_multi_2_lines_columns_recursive_possible_stars,
   rule_multi_3_lines_columns_recursive_possible_stars,
   rule_multi_4_lines_columns_recursive_possible_stars]

/-- The always-None rule used as the getD default when indexing ruleList. -/
def noRule (_ : GridHandler) (_ : Grid) : Option GoodRule := none

/-- get_good_rule (src/grid_good_ruler/good_rule.rs): check_bad_rules first,
then the done test, then the first rule of the fixed sequence that fires. -/
def get_good_rule (h : GridHandler) (g : Grid) : Except BadRuleError (Option GoodRule) :=
  match check_bad_rules h g with
  | .error e => .error e
  | .ok _ =>
    if h.is_done g then .ok none
    else .ok (ruleList.findSome? fun f => f h g)

/-- The C2 witness grid: one star in the middle of the empty test grid. -/
def gC2 : Grid := (Grid.fromHandler hTest).apply_action (.SetStar (LineColumn.mk 2 2))

/-- The C4 counterexample grid: a star at (4,0) with its neighbourhood
already forced to NoStar; region D is complete but line 3 depends on the
remaining D cells. -/
def gC4 : Grid :=
  applyActions (Grid.fromHandler hTest)
    [.SetStar (LineColumn.mk 4 0), .SetNoStar (LineColumn.mk 3 0),
     .SetNoStar (LineColumn.mk 3 1), .SetNoStar (LineColumn.mk 4 1)]

/-- The deduction get_good_rule returns on gC4. -/
def dC4 : GoodRule :=
  .ZoneNoStarCompleted (.Region 'D')
    [.SetNoStar (LineColumn.mk 3 2), .SetNoStar (LineColumn.mk 3 3),
     .SetNoStar (LineColumn.mk 3 4), .SetNoStar (LineColumn.mk 4 4)]

/-- COMMENT_CHARS (src/grid_parser.rs). -/
def COMMENT_CHARS : List Char := ['#', ';', '@']

/-- ILLEGAL_REGION_CHARS (src/grid_parser.rs). -/
def ILLEGAL_REGION_CHARS : List Char := [' ', '\t', '\n', '\r']

/-- str::trim on a character list (whitespace stripped from both ends). -/
def trimChars (t : List Char) : List Char :=
  ((t.dropWhile Char.isWhitespace).reverse.dropWhile Char.isWhitespace).reverse

/-- The parser state (src/grid_parser.rs, struct GridParser): the region
labels seen so far (a HashSet in Rust, modelled as a first-seen-ordered
duplicate-free list) and the parsed rows. -/
structure GridParser where
  regions : List Region
  parsed_grid : List (List GridCell)
deriving DecidableEq, Repr

/-- The character loop of GridParser::parse_text_line: reject illegal region
characters, record each region label and build the row of cells. -/
def parseLineChars (line : Nat) : Nat → List Region → List GridCell → List Char →
    Except String (List Region × List GridCell)
  | _, regions, acc, [] => .ok (regions, acc)
  | column, regions, acc, ch :: rest =>
    if ch ∈ ILLEGAL_REGION_CHARS then
      .error "caractere non valide pour identifier une region"
    else
      parseLineChars line (column + 1)
        (if ch ∈ regions then regions else regions ++ [ch])
        (acc ++ [GridCell.mk (LineColumn.mk line column) ch CellValue.Unknown]) rest

/-- GridParser::parse_text_line (src/grid_parser.rs): parse one useful line,
then reject it when its length differs from the first row. -/
def parse_text_line (p : GridParser) (t : List Char) : Except String GridParser :=
  match parseLineChars p.parsed_grid.length 0 p.regions [] t with
  | .error e => .error e
  | .ok res =>
    if p.parsed_grid ≠ [] ∧ (p.parsed_grid.headD []).length ≠ res.2.length then
      .error "la ligne de la grille n a pas la meme longueur"
    else .ok { regions := res.1, parsed_grid := p.parsed_grid ++ [res.2] }

/-- The line loop of GridParser::try_from: trim, skip empty and comment
lines, parse the rest, stopping at the first error (the Rust line-number
prefix added to the message is elided). -/
def tryFromLines : GridParser → List (List Char) → Except String GridParser
  | p, [] => .ok p
  | p, line :: rest =>
    match trimChars line with
    | [] => tryFromLines p rest
    | c :: cs =>
      if c ∈ COMMENT_CHARS then tryFromLines p rest
      else
        match parse_text_line p (c :: cs) with
        | .error e => .error e
        | .ok p' => tryFromLines p' rest

/-- GridParser::nb_lines. -/
def GridParser.nb_lines (p : GridParser) : Nat := p.parsed_grid.length

/-- GridParser::nb_columns. -/
def GridParser.nb_columns (p : GridParser) : Nat := (p.parsed_grid.headD []).length

/-- Parser cell access (Checker uses parser.cell(...).unwrap()). -/
def GridParser.cellAt (p : GridParser) (line column : Nat) : GridCell :=
  (p.parsed_grid.getD line []).getD column default

/-- GridParser::list_cells. -/
def GridParser.list_cells (p : GridParser) : List GridCell := p.parsed_grid.flatten

/-- GridParser::region_cells. -/
def GridParser.region_cells (p : GridParser) (region : Region) : List GridCell :=
  p.list_cells.filter fun c => decide (c.region = region)

/-- Checker::adjacent_cells (src/checker.rs): the orthogonal neighbours, in
the N, S, W, E order of the source. -/
def checkerAdjacentCells (p : GridParser) (cell : GridCell) : List GridCell :=
  let line := cell.line_column.line
  let column := cell.line_column.column
  (if 0 < line then [p.cellAt (line - 1) column] else []) ++
  (if line < p.nb_lines - 1 then [p.cellAt (line + 1) column] else []) ++
  (if 0 < column then [p.cellAt line (column - 1)] else []) ++
  (if column < p.nb_columns - 1 then [p.cellAt line (column + 1)] else [])

/-- Checker::adjacent_region_cells (src/checker.rs). -/
def checkerAdjacentRegionCells (p : GridParser) (cell : GridCell) : List GridCell :=
  (checkerAdjacentCells p cell).filter fun c => decide (c.region = cell.region)

/-- The reachability loop of Checker::region_ok (src/checker.rs), with
explicit fuel (the Rust loop terminates because the visited list grows;
the fuel below covers every run).  The Rust code pops from the end of the
worklist; the visited set, and hence its size, does not depend on that
order, and we pop from the front. -/
def regionBfs (p : GridParser) : Nat → List GridCell → List GridCell → List GridCell
  | 0, _, checked => checked
  | _ + 1, [], checked => checked
  | fuel + 1, current :: rest, checked =>
    if current ∈ checked then regionBfs p fuel rest checked
    else
      regionBfs p fuel
        (rest ++ (checkerAdjacentRegionCells p current).filter fun c =>
          decide (c ∉ checked ++ [current]))
        (checked ++ [current])

/-- Checker::region_ok (src/checker.rs): a region is a consistent block when
the cells reachable from its first cell by orthogonal steps within the
region are all of its cells. -/
def region_ok (p : GridParser) (region : Region) : Bool :=
  let all_region_cells := p.region_cells region
  if all_region_cells.isEmpty then false
  else
    decide ((regionBfs p (5 * all_region_cells.length + 1)
      [all_region_cells.headD default] []).length = all_region_cells.length)

/-- The region loop of Checker::check (src/checker.rs). -/
def checkerCheckList (p : GridParser) : List Region → Except String Unit
  | [] => .ok ()
  | r :: rest =>
    if region_ok p r then checkerCheckList p rest
    else .error "la region n est pas un bloc consistant dans cette grille"

/-- Checker::check, standing for the GridParserChecker used by
GridParser::try_from (declared in src/lib.rs; its file is missing from src,
and src/checker.rs is the same connectivity check). -/
def checkerCheck (p : GridParser) : Except String Unit := checkerCheckList p p.regions

/-- GridParser::try_from (src/grid_parser.rs): parse the lines, require at
least one region, then run the connectivity checker. -/
def GridParser.try_from (lines : List (List Char)) : Except String GridParser :=
  match tryFromLines { regions := [], parsed_grid := [] } lines with
  | .error e => .error e
  | .ok p =>
    if p.regions.isEmpty || p.parsed_grid.isEmpty then
      .error "la grille n a aucune region definie"
    else
      match checkerCheck p with
      | .error e => .error e
      | .ok _ => .ok p

/-- The lines that survive the comment filter of try_from, trimmed. -/
def usefulLines : List (List Char) → List (List Char)
  | [] => []
  | line :: rest =>
    match trimChars line with
    | [] => usefulLines rest
    | c :: cs =>
      if c ∈ COMMENT_CHARS then usefulLines rest else (c :: cs) :: usefulLines rest

/-- The region labels of one line folded into the running set. -/
def insertRegions (regions : List Region) (t : List Char) : List Region :=
  t.foldl (fun acc ch => if ch ∈ acc then acc else acc ++ [ch]) regions

/-- The region labels of a list of lines. -/
def insertRegionsAll (regions : List Region) (useful : List (List Char)) : List Region :=
  useful.foldl insertRegions regions

/-- The row of cells a useful line parses to. -/
def buildRowFrom (line : Nat) : Nat → List Char → List GridCell
  | _, [] => []
  | col, ch :: rest =>
    GridCell.mk (LineColumn.mk line col) ch CellValue.Unknown ::
      buildRowFrom line (col + 1) rest

/-- The rows of cells a list of useful lines parses to. -/
def buildRowsFrom : Nat → List (List Char) → List (List GridCell)
  | _, [] => []
  | line, t :: rest => buildRowFrom line 0 t :: buildRowsFrom (line + 1) rest

/-- The parser state a successful parse of the given useful lines yields. -/
def builtParser (useful : List (List Char)) : GridParser :=
  { regions := insertRegionsAll [] useful, parsed_grid := buildRowsFrom 0 useful }

/-- The fold of parse_text_line over the useful lines (tryFromLines with the
comment filtering already performed). -/
def tryFromUseful : GridParser → List (List Char) → Except String GridParser
  | p, [] => .ok p
  | p, t :: rest =>
    match parse_text_line p t with
    | .error e => .error e
    | .ok p' => tryFromUseful p' rest

/-- The row length every further useful line is held to: the length of the
first parsed row, or of the first useful line when nothing is parsed yet. -/
def lineLengthTarget (p : GridParser) (useful : List (List Char)) : Nat :=
  if p.parsed_grid.isEmpty then (useful.headD []).length
  else (p.parsed_grid.headD []).length

theorem updateCellRow_length (v : CellValue) :
    ∀ (row : List GridCell) (col : Nat), (updateCellRow col v row).length = row.length := by
  intro row
  induction row with
  | nil => intro col; simp [updateCellRow]
  | cons c cs ih =>
    intro col
    cases col with
    | zero => rfl
    | succ n => simpa [updateCellRow] using ih n

theorem updateCellRow_getD_ne (v : CellValue) (d : GridCell) :
    ∀ (row : List GridCell) (col col' : Nat), col' ≠ col →
      (updateCellRow col v row).getD col' d = row.getD col' d := by
  intro row
  induction row with
  | nil => intro col col' _; simp [updateCellRow]
  | cons c cs ih =>
    intro col col' hne
    cases col with
    | zero =>
      cases col' with
      | zero => exact absurd rfl hne
      | succ m => simp [updateCellRow]
    | succ n =>
      cases col' with
      | zero => simp [updateCellRow]
      | succ m =>
        simp only [updateCellRow, List.getD_cons_succ]
        exact ih n m (fun heq => hne (by rw [heq]))

theorem updateCellRow_getD_eq (v : CellValue) (d : GridCell) :
    ∀ (row : List GridCell) (col : Nat), col < row.length →
      (updateCellRow col v row).getD col d = { row.getD col d with value := v } := by
  intro row
  induction row with
  | nil => intro col hcol; exact absurd hcol (by simp)
  | cons c cs ih =>
    intro col hcol
    cases col with
    | zero => rfl
    | succ n =>
      simp only [updateCellRow, List.getD_cons_succ]
      exact ih n (by simpa using hcol)

theorem updateCellRow_idem (v : CellValue) :
    ∀ (row : List GridCell) (col : Nat),
      updateCellRow col v (updateCellRow col v row) = updateCellRow col v row := by
  intro row
  induction row with
  | nil => intro col; simp [updateCellRow]
  | cons c cs ih =>
    intro col
    cases col with
    | zero => rfl
    | succ n => simp [updateCellRow, ih n]

theorem updateCells_length (v : CellValue) :
    ∀ (cells : List (List GridCell)) (line col : Nat),
      (updateCells line col v cells).length = cells.length := by
  intro cells
  induction cells with
  | nil => intro line col; simp [updateCells]
  | cons r rs ih =>
    intro line col
    cases line with
    | zero => rfl
    | succ n => simpa [updateCells] using ih n col

theorem updateCells_getD_self (v : CellValue) :
    ∀ (cells : List (List GridCell)) (line col : Nat),
      (updateCells line col v cells).getD line [] = updateCellRow col v (cells.getD line []) := by
  intro cells
  induction cells with
  | nil => intro line col; simp [updateCells, updateCellRow]
  | cons r rs ih =>
    intro line col
    cases line with
    | zero => rfl
    | succ n =>
      simp only [updateCells, List.getD_cons_succ]
      exact ih n col

theorem updateCells_getD_ne (v : CellValue) :
    ∀ (cells : List (List GridCell)) (line line' col : Nat), line' ≠ line →
      (updateCells line col v cells).getD line' [] = cells.getD line' [] := by
  intro cells
  induction cells with
  | nil => intro line line' col _; simp [updateCells]
  | cons r rs ih =>
    intro line line' col hne
    cases line with
    | zero =>
      cases line' with
      | zero => exact absurd rfl hne
      | succ m => simp [updateCells]
    | succ n =>
      cases line' with
      | zero => simp [updateCells]
      | succ m =>
        simp only [updateCells, List.getD_cons_succ]
        exact ih n m col (fun hq => hne (by rw [hq]))

theorem updateCells_idem (v : CellValue) :
    ∀ (cells : List (List GridCell)) (line col : Nat),
      updateCells line col v (updateCells line col v cells) = updateCells line col v cells := by
  intro cells
  induction cells with
  | nil => intro line col; simp [updateCells]
  | cons r rs ih =>
    intro line col
    cases line with
    | zero => simp [updateCells, updateCellRow_idem]
    | succ n => simp [updateCells, ih n col]

theorem Grid.cell_setCellValue_same (g : Grid) (lc : LineColumn) (v : CellValue)
    (hcol : lc.column < (g.cells.getD lc.line []).length) :
    (g.setCellValue lc v).cell lc = { g.cell lc with value := v } := by
  unfold Grid.cell Grid.setCellValue
  simp only [updateCells_getD_self]
  exact updateCellRow_getD_eq v default _ lc.column hcol

theorem Grid.cell_setCellValue_ne (g : Grid) (lc lc' : LineColumn) (v : CellValue)
    (hne : lc' ≠ lc) :
    (g.setCellValue lc v).cell lc' = g.cell lc' := by
  unfold Grid.cell Grid.setCellValue
  by_cases hl : lc'.line = lc.line
  · have hc : lc'.column ≠ lc.column := by
      intro hc
      exact hne (by cases lc; cases lc'; simp_all)
    simp only [hl, updateCells_getD_self]
    exact updateCellRow_getD_ne v default _ lc.column lc'.column hc
  · rw [updateCells_getD_ne v g.cells lc.line lc'.line lc.column hl]

theorem Grid.setCellValue_idem (g : Grid) (lc : LineColumn) (v : CellValue) :
    (g.setCellValue lc v).setCellValue lc v = g.setCellValue lc v := by
  unfold Grid.setCellValue
  simp [updateCells_idem]

theorem Grid.apply_action_eq_setCellValue (g : Grid) (a : GridAction) :
    g.apply_action a = g.setCellValue a.line_column a.value := by
  cases a <;> rfl

/-- C10: applying Set(c, v) only modifies the value field of the cell at c:
every other cell, the dimensions, and the coord and region fields at c are
unchanged, and the application is idempotent. -/
theorem C10_apply_action_frame (g : Grid) (a : GridAction)
    (hline : a.line_column.line < g.cells.length)
    (hcol : a.line_column.column < (g.cells.getD a.line_column.line []).length) :
    (((g.apply_action a).cell a.line_column).value = a.value ∧
      ((g.apply_action a).cell a.line_column).line_column = (g.cell a.line_column).line_column ∧
      ((g.apply_action a).cell a.line_column).region = (g.cell a.line_column).region) ∧
    (∀ lc' : LineColumn, lc' ≠ a.line_column → (g.apply_action a).cell lc' = g.cell lc') ∧
    ((g.apply_action a).size = g.size ∧
      (g.apply_action a).cells.length = g.cells.length ∧
      ∀ i : Nat, ((g.apply_action a).cells.getD i []).length = (g.cells.getD i []).length) ∧
    (g.apply_action a).apply_action a = g.apply_action a := by
  rw [Grid.apply_action_eq_setCellValue]
  refine ⟨?_, ?_, ⟨rfl, ?_, ?_⟩, ?_⟩
  · rw [Grid.cell_setCellValue_same g a.line_column a.value hcol]
    exact ⟨rfl, rfl, rfl⟩
  · intro lc' hne
    exact Grid.cell_setCellValue_ne g a.line_column lc' a.value hne
  · exact updateCells_length a.value g.cells a.line_column.line a.line_column.column
  · intro i
    simp only [Grid.setCellValue]
    by_cases hi : i = a.line_column.line
    · rw [hi, updateCells_getD_self]
      exact updateCellRow_length a.value _ a.line_column.column
    · rw [updateCells_getD_ne a.value g.cells a.line_column.line i a.line_column.column hi]
  · rw [Grid.apply_action_eq_setCellValue]
    exact Grid.setCellValue_idem g a.line_column a.value

/-- C10 witness: a concrete application on the 5x5 test grid is idempotent. -/
theorem C10_witness :
    ((Grid.fromHandler hTest).apply_action (GridAction.SetStar (LineColumn.mk 2 2))).apply_action
        (GridAction.SetStar (LineColumn.mk 2 2)) =
      (Grid.fromHandler hTest).apply_action (GridAction.SetStar (LineColumn.mk 2 2)) :=
  (C10_apply_action_frame (Grid.fromHandler hTest) (GridAction.SetStar (LineColumn.mk 2 2))
    (by decide) (by decide)).2.2.2

/-- C5: is_done holds exactly when no cell of the grid is Unknown and
check_bad_rules succeeds (for a grid whose dimensions agree with the
descriptor). -/
theorem C5_is_done_iff (h : GridHandler) (g : Grid)
    (hlen : g.cells.length = h.nb_lines)
    (hrow : ∀ row ∈ g.cells, row.length = h.nb_columns) :
    h.is_done g = true ↔
      ((∀ row ∈ g.cells, ∀ c ∈ row, c.value ≠ CellValue.Unknown) ∧
        check_bad_rules h g = .ok ()) := by
  unfold GridHandler.is_done
  rw [Bool.and_eq_true]
  constructor
  · rintro ⟨hall, hchk⟩
    constructor
    · intro row hrowmem c hc
      rcases List.mem_iff_getElem.mp hrowmem with ⟨i, hilt, hi⟩
      rcases List.mem_iff_getElem.mp hc with ⟨j, hjlt, hj⟩
      have h1 := List.all_eq_true.mp hall i
        (List.mem_range.mpr (by rw [← hlen]; exact hilt))
      have h2 := List.all_eq_true.mp h1 j (List.mem_range.mpr (by
        rw [← hrow row hrowmem]; exact hjlt))
      have hcell : g.cell (LineColumn.mk i j) = c := by
        unfold Grid.cell
        have : g.cells.getD i [] = row := by rw [List.getD_eq_getElem g.cells [] hilt, hi]
        rw [show (LineColumn.mk i j).line = i from rfl, show (LineColumn.mk i j).column = j from rfl,
          this, List.getD_eq_getElem row default hjlt, hj]
      simp only [Bool.not_eq_true', decide_eq_false_iff_not] at h2
      rw [hcell] at h2
      exact h2
    · cases hc : check_bad_rules h g with
      | ok u => cases u; rfl
      | error e => rw [hc] at hchk; simp at hchk
  · rintro ⟨hnone, hchk⟩
    constructor
    · refine List.all_eq_true.mpr ?_
      intro i hi
      refine List.all_eq_true.mpr ?_
      intro j hj
      have hilt : i < g.cells.length := by rw [hlen]; exact List.mem_range.mp hi
      have hrowmem : g.cells[i] ∈ g.cells := List.getElem_mem hilt
      have hjlt : j < (g.cells[i]).length := by
        rw [hrow _ hrowmem]; exact List.mem_range.mp hj
      have hcmem : (g.cells[i])[j] ∈ g.cells[i] := List.getElem_mem hjlt
      have hcell : g.cell (LineColumn.mk i j) = (g.cells[i])[j] := by
        unfold Grid.cell
        rw [show (LineColumn.mk i j).line = i from rfl, show (LineColumn.mk i j).column = j from rfl,
          List.getD_eq_getElem g.cells [] hilt, List.getD_eq_getElem _ default hjlt]
      simp only [Bool.not_eq_true', decide_eq_false_iff_not]
      rw [hcell]
      exact hnone _ hrowmem _ hcmem
    · rw [hchk]

/-- C5 witness: the solved 5x5 test grid is done. -/
theorem C5_witness : GridHandler.is_done hTest gSolved = true :=
  (C5_is_done_iff hTest gSolved (by decide) (by decide)).mpr ⟨by decide, rfl⟩

/-- C7: Variant.combine is commutative and associative and Init is its
two-sided identity. -/
theorem C7_variant_combine_monoid :
    (∀ a b : Variant, a.combine b = b.combine a) ∧
    (∀ a b c : Variant, (a.combine b).combine c = a.combine (b.combine c)) ∧
    (∀ a : Variant, Variant.Init.combine a = a ∧ a.combine Variant.Init = a) := by
  refine ⟨?_, ?_, ?_⟩
  · intro a b
    cases a <;> cases b <;> rfl
  · intro a b c
    cases a <;> cases b <;> cases c <;> rfl
  · intro a
    cases a <;> exact ⟨rfl, rfl⟩

theorem rowMajorCoords_mem (h : GridHandler) (lc : LineColumn) :
    lc ∈ h.rowMajorCoords ↔ lc.line < h.nb_lines ∧ lc.column < h.nb_columns := by
  unfold GridHandler.rowMajorCoords
  simp only [List.mem_flatMap, List.mem_map, List.mem_range]
  constructor
  · rintro ⟨a, ha, b, hb, rfl⟩
    exact ⟨ha, hb⟩
  · rintro ⟨h1, h2⟩
    exact ⟨lc.line, h1, lc.column, h2, rfl⟩

theorem pairwise_flatMap_rowMajor (m : Nat) :
    ∀ lines : List Nat, lines.Pairwise (· < ·) →
      (lines.flatMap fun line => (List.range m).map fun column =>
        LineColumn.mk line column).Pairwise rowMajorLt := by
  intro lines
  induction lines with
  | nil => intro _; simp
  | cons a as ih =>
    intro hp
    rw [List.flatMap_cons]
    rcases List.pairwise_cons.mp hp with ⟨hlt, htail⟩
    apply List.pairwise_append.mpr
    refine ⟨?_, ih htail, ?_⟩
    · rw [List.pairwise_map]
      exact (List.pairwise_lt_range m).imp fun hab => Or.inr ⟨rfl, hab⟩
    · intro x hx y hy
      rcases List.mem_map.mp hx with ⟨c, _, rfl⟩
      rcases List.mem_flatMap.mp hy with ⟨b, hb, hyb⟩
      rcases List.mem_map.mp hyb with ⟨c', _, rfl⟩
      exact Or.inl (hlt b hb)

theorem rowMajorCoords_pairwise (h : GridHandler) :
    h.rowMajorCoords.Pairwise rowMajorLt :=
  pairwise_flatMap_rowMajor h.nb_columns (List.range h.nb_lines)
    (List.pairwise_lt_range h.nb_lines)

/-- C6: the surfer returns exactly the coordinates matching the zone
predicate, in strictly increasing row-major order, and its output does not
depend on the cell values (only on the region fields, which the descriptor
fixes). -/
theorem C6_surfer_rowmajor_deterministic (h : GridHandler) (g : Grid) (z : GridSurfer) :
    (∀ lc : LineColumn, lc ∈ h.surfer g z ↔
      lc.line < h.nb_lines ∧ lc.column < h.nb_columns ∧ cellIsMatching h g z lc = true) ∧
    (h.surfer g z).Pairwise rowMajorLt ∧
    (∀ g' : Grid,
      (∀ lc ∈ h.rowMajorCoords, (g'.cell lc).region = (g.cell lc).region) →
      h.surfer g' z = h.surfer g z) := by
  refine ⟨?_, ?_, ?_⟩
  · intro lc
    unfold GridHandler.surfer
    rw [List.mem_filter, rowMajorCoords_mem]
    constructor
    · rintro ⟨⟨h1, h2⟩, h3⟩
      exact ⟨h1, h2, h3⟩
    · rintro ⟨h1, h2, h3⟩
      exact ⟨⟨h1, h2⟩, h3⟩
  · exact List.Pairwise.sublist (List.filter_sublist _) (rowMajorCoords_pairwise h)
  · intro g' hreg
    unfold GridHandler.surfer
    apply List.filter_congr
    intro lc hmem
    cases z with
    | AllCells => rfl
    | Region r =>
      show decide ((g'.cell lc).region = r) = decide ((g.cell lc).region = r)
      rw [hreg lc hmem]
    | Adjacent c => rfl
    | Line l => rfl
    | Column c => rfl
    | Lines a b => rfl
    | Columns a b => rfl

/-- C6 witness: on the 5x5 test descriptor the surfer of region B returns the
same coordinates on the all-Unknown grid and on a fully solved grid. -/
theorem C6_witness :
    hTest.surfer gSolved (GridSurfer.Region 'B') =
      hTest.surfer (Grid.fromHandler hTest) (GridSurfer.Region 'B') :=
  (C6_surfer_rowmajor_deterministic hTest (Grid.fromHandler hTest)
    (GridSurfer.Region 'B')).2.2 gSolved (by decide)

theorem countFold_eq (g : Grid) :
    ∀ (l : List LineColumn) (p : Nat × Nat),
      l.foldl (fun (p : Nat × Nat) lc =>
        match (g.cell lc).value with
        | .Star => (p.1 + 1, p.2)
        | .Unknown => (p.1, p.2 + 1)
        | .NoStar => p) p =
      (p.1 + (l.filter fun lc => decide ((g.cell lc).value = CellValue.Star)).length,
       p.2 + (l.filter fun lc => decide ((g.cell lc).value = CellValue.Unknown)).length) := by
  intro l
  induction l with
  | nil => intro p; simp
  | cons lc rest ih =>
    intro p
    rw [List.foldl_cons]
    cases hv : (g.cell lc).value with
    | Star =>
      simp only [hv, ih, List.filter_cons, hv]
      simp [Prod.ext_iff]
      omega
    | Unknown =>
      simp only [hv, ih, List.filter_cons, hv]
      simp [Prod.ext_iff]
      omega
    | NoStar =>
      simp only [hv, ih, List.filter_cons, hv]
      simp [Prod.ext_iff]

theorem check_zone_eq (h : GridHandler) (g : Grid) (z : GridSurfer) :
    check_zone h g z =
      (if h.nb_stars < h.surfer_cells_with_value_count g z CellValue.Star then
        .error (.TooManyStarsInZone z)
      else if h.surfer_cells_with_value_count g z CellValue.Star +
          h.surfer_cells_with_value_count g z CellValue.Unknown < h.nb_stars then
        .error (.NotEnoughStarsInZone z)
      else .ok ()) := by
  unfold check_zone GridHandler.surfer_cells_with_value_count
  rw [countFold_eq]
  simp

theorem check_zone_ok_iff (h : GridHandler) (g : Grid) (z : GridSurfer) :
    check_zone h g z = .ok () ↔ zoneCountsOk h g z := by
  rw [check_zone_eq]
  unfold zoneCountsOk
  split_ifs with h1 h2 <;> constructor <;> intro hx <;> first | omega | simp_all | rfl

theorem checkZonesList_ok_iff (h : GridHandler) (g : Grid) :
    ∀ zs : List GridSurfer,
      checkZonesList h g zs = .ok () ↔ ∀ z ∈ zs, check_zone h g z = .ok () := by
  intro zs
  induction zs with
  | nil => simp [checkZonesList]
  | cons z rest ih =>
    unfold checkZonesList
    cases hz : check_zone h g z with
    | error e =>
      simp only [List.mem_cons]
      constructor
      · intro hx; exact absurd hx (by simp)
      · intro hall
        have := hall z (Or.inl rfl)
        rw [hz] at this
        exact absurd this (by simp)
    | ok u =>
      cases u
      rw [ih]
      constructor
      · intro hall z' hz'
        rcases List.mem_cons.mp hz' with hh | hh
        · rw [hh]; exact hz
        · exact hall z' hh
      · intro hall z' hz'
        exact hall z' (List.mem_cons_of_mem z hz')

theorem checkZonesList_append (h : GridHandler) (g : Grid) :
    ∀ l1 l2 : List GridSurfer,
      checkZonesList h g (l1 ++ l2) =
        (match checkZonesList h g l1 with
        | .error e => .error e
        | .ok _ => checkZonesList h g l2) := by
  intro l1
  induction l1 with
  | nil => intro l2; simp [checkZonesList]
  | cons z rest ih =>
    intro l2
    cases hz : check_zone h g z with
    | error e => simp [checkZonesList, hz]
    | ok u => cases u; simp [checkZonesList, hz, ih l2]

theorem checkZonesList_error_at (h : GridHandler) (g : Grid) :
    ∀ (zs : List GridSurfer) (i : Nat), i < zs.length →
      (∀ j, j < i → check_zone h g (zs.getD j .AllCells) = .ok ()) →
      ∀ e : BadRuleError, check_zone h g (zs.getD i .AllCells) = .error e →
        checkZonesList h g zs = .error e := by
  intro zs
  induction zs with
  | nil => intro i hi; exact absurd hi (by simp)
  | cons z rest ih =>
    intro i hi hok e herr
    cases i with
    | zero =>
      unfold checkZonesList
      rw [show (z :: rest).getD 0 .AllCells = z from rfl] at herr
      rw [herr]
    | succ n =>
      unfold checkZonesList
      have h0 := hok 0 (Nat.succ_pos n)
      rw [show (z :: rest).getD 0 .AllCells = z from rfl] at h0
      rw [h0]
      exact ih n (by simpa using hi) (fun j hj => hok (j + 1) (by omega)) e herr

theorem surfer_allCells (h : GridHandler) (g : Grid) :
    h.surfer g .AllCells = h.rowMajorCoords := by
  unfold GridHandler.surfer
  simp [cellIsMatching]

theorem checkNoStarAdjacentList_ok_iff (h : GridHandler) (g : Grid) :
    ∀ l : List LineColumn,
      checkNoStarAdjacentList h g l = .ok () ↔
        ∀ lc ∈ l, (g.cell lc).value = CellValue.Star →
          ∀ a ∈ h.adjacent_cells lc, ¬((g.cell a).value = CellValue.Star) := by
  intro l
  induction l with
  | nil => simp [checkNoStarAdjacentList]
  | cons lc rest ih =>
    unfold checkNoStarAdjacentList
    by_cases hs : (g.cell lc).value = CellValue.Star
    · rw [if_pos hs]
      cases hf : (h.adjacent_cells lc).find?
          (fun a => decide ((g.cell a).value = CellValue.Star)) with
      | some a =>
        constructor
        · intro hx; exact absurd hx (by simp)
        · intro hall
          have hmem := List.mem_of_find?_eq_some hf
          have hsa := List.find?_some hf
          simp only [decide_eq_true_eq] at hsa
          exact absurd hsa (hall lc (List.mem_cons_self lc rest) hs a hmem)
      | none =>
        rw [ih]
        have hnone := List.find?_eq_none.mp hf
        constructor
        · intro hall lc' hlc' hstar' a ha
          rcases List.mem_cons.mp hlc' with hh | hh
          · subst hh
            have := hnone a ha
            simpa using this
          · exact hall lc' hh hstar' a ha
        · intro hall lc' hlc' hstar' a ha
          exact hall lc' (List.mem_cons_of_mem lc hlc') hstar' a ha
    · rw [if_neg hs]
      rw [ih]
      constructor
      · intro hall lc' hlc' hstar' a ha
        rcases List.mem_cons.mp hlc' with hh | hh
        · subst hh; exact absurd hstar' hs
        · exact hall lc' hh hstar' a ha
      · intro hall lc' hlc' hstar' a ha
        exact hall lc' (List.mem_cons_of_mem lc hlc') hstar' a ha

theorem checkNoStarAdjacentList_error_shape (h : GridHandler) (g : Grid) :
    ∀ (l : List LineColumn) (e : BadRuleError),
      checkNoStarAdjacentList h g l = .error e →
        ∃ c1 c2, e = .StarAdjacent c1 c2 := by
  intro l
  induction l with
  | nil => intro e he; exact absurd he (by simp [checkNoStarAdjacentList])
  | cons lc rest ih =>
    intro e he
    unfold checkNoStarAdjacentList at he
    by_cases hs : (g.cell lc).value = CellValue.Star
    · rw [if_pos hs] at he
      revert he
      cases hf : (h.adjacent_cells lc).find?
          (fun a => decide ((g.cell a).value = CellValue.Star)) with
      | some a =>
        intro he
        exact ⟨lc, a, by simpa using he.symm⟩
      | none =>
        intro he
        exact ih e he
    · rw [if_neg hs] at he
      exact ih e he

theorem adjacencyOk_iff (h : GridHandler) (g : Grid) :
    adjacencyOk h g ↔ check_no_star_adjacent h g = .ok () := by
  unfold check_no_star_adjacent adjacencyOk
  rw [surfer_allCells, checkNoStarAdjacentList_ok_iff]

theorem check_bad_rules_eq (h : GridHandler) (g : Grid) :
    check_bad_rules h g =
      (match check_no_star_adjacent h g with
      | .error e => .error e
      | .ok _ => checkZonesList h g (zonesOrder h)) := by
  unfold check_bad_rules zonesOrder
  cases check_no_star_adjacent h g with
  | error e => rfl
  | ok u =>
    cases u
    rw [checkZonesList_append, checkZonesList_append]
    cases checkZonesList h g (h.regions.map GridSurfer.Region) with
    | error e => rfl
    | ok u =>
      cases u
      cases checkZonesList h g ((List.range h.nb_lines).map GridSurfer.Line) with
      | error e => rfl
      | ok u => cases u; rfl

/-- C3: check_bad_rules succeeds exactly when no Star has a Star neighbour
and every region, line and column zone satisfies the counting conditions;
it fails fast with StarAdjacent on an adjacency violation, and otherwise
with the error of the first violating zone in region-line-column order
(TooMany when s exceeds K, NotEnough when s + u is below K). -/
theorem C3_check_bad_rules_characterization (h : GridHandler) (g : Grid) :
    (check_bad_rules h g = .ok () ↔
      adjacencyOk h g ∧ ∀ z ∈ zonesOrder h, zoneCountsOk h g z) ∧
    (¬adjacencyOk h g →
      ∃ c1 c2, check_bad_rules h g = .error (.StarAdjacent c1 c2)) ∧
    (adjacencyOk h g → ∀ i : Nat, i < (zonesOrder h).length →
      (∀ j, j < i → zoneCountsOk h g ((zonesOrder h).getD j .AllCells)) →
      ¬zoneCountsOk h g ((zonesOrder h).getD i .AllCells) →
      check_bad_rules h g = .error
        (if h.nb_stars <
            h.surfer_cells_with_value_count g ((zonesOrder h).getD i .AllCells) CellValue.Star
        then .TooManyStarsInZone ((zonesOrder h).getD i .AllCells)
        else .NotEnoughStarsInZone ((zonesOrder h).getD i .AllCells))) := by
  refine ⟨?_, ?_, ?_⟩
  · rw [check_bad_rules_eq]
    cases hadj : check_no_star_adjacent h g with
    | error e =>
      constructor
      · intro hx; exact absurd hx (by simp)
      · rintro ⟨hok, _⟩
        rw [adjacencyOk_iff, hadj] at hok
        exact absurd hok (by simp)
    | ok u =>
      cases u
      rw [checkZonesList_ok_iff]
      constructor
      · intro hall
        refine ⟨(adjacencyOk_iff h g).mpr hadj, ?_⟩
        intro z hz
        exact (check_zone_ok_iff h g z).mp (hall z hz)
      · rintro ⟨_, hall⟩
        intro z hz
        exact (check_zone_ok_iff h g z).mpr (hall z hz)
  · intro hnadj
    rw [check_bad_rules_eq]
    cases hadj : check_no_star_adjacent h g with
    | error e =>
      have hadj' : checkNoStarAdjacentList h g (h.surfer g .AllCells) = .error e := hadj
      rcases checkNoStarAdjacentList_error_shape h g _ e hadj' with ⟨c1, c2, rfl⟩
      exact ⟨c1, c2, rfl⟩
    | ok u =>
      cases u
      exact absurd ((adjacencyOk_iff h g).mpr hadj) hnadj
  · intro hadj i hi hok hbad
    rw [check_bad_rules_eq]
    rw [adjacencyOk_iff] at hadj
    rw [hadj]
    apply checkZonesList_error_at h g (zonesOrder h) i hi
    · intro j hj
      exact (check_zone_ok_iff h g _).mpr (hok j hj)
    · rw [check_zone_eq]
      unfold zoneCountsOk at hbad
      split_ifs with h1 h2
      · rfl
      · rfl
      · exact absurd ⟨by omega, by omega⟩ hbad

/-- C3 witness: on the 5x5 test descriptor the empty grid passes all the
checks, and a grid with two stars in region B fails on that region. -/
theorem C3_witness :
    check_bad_rules hTest (Grid.fromHandler hTest) = .ok () ∧
    check_bad_rules hTest
        (applyActions (Grid.fromHandler hTest)
          [.SetStar (LineColumn.mk 0 1), .SetStar (LineColumn.mk 0 4)]) =
      .error (.TooManyStarsInZone (.Region 'B')) := by
  constructor
  · exact (C3_check_bad_rules_characterization hTest (Grid.fromHandler hTest)).1.mpr (by decide)
  · have := (C3_check_bad_rules_characterization hTest
      (applyActions (Grid.fromHandler hTest)
        [.SetStar (LineColumn.mk 0 1), .SetStar (LineColumn.mk 0 4)])).2.2
      (by decide) 4 (by decide) (by decide) (by decide)
    simpa using this

theorem combLoop_eq :
    ∀ (left acc cells : Nat), acc < 2 ^ 64 →
      combLoop acc cells left = acc * Nat.descFactorial cells left % 2 ^ 64 := by
  intro left
  induction left with
  | zero =>
    intro acc cells hacc
    show acc = acc * 1 % 2 ^ 64
    rw [Nat.mul_one, Nat.mod_eq_of_lt hacc]
  | succ n ih =>
    intro acc cells hacc
    show combLoop (acc * cells % 2 ^ 64) (cells - 1) n = _
    rw [ih (acc * cells % 2 ^ 64) (cells - 1) (Nat.mod_lt _ (by norm_num)),
      Nat.mod_mul_mod]
    congr 1
    cases cells with
    | zero => simp
    | succ c =>
      rw [Nat.succ_descFactorial_succ]
      show acc * (c + 1) * Nat.descFactorial c n = _
      ring

/-- C8 (amended): the cost function returns usize::MAX exactly when the zone
already has at least its target of stars; otherwise 0 exactly when the
Unknown cells do not outnumber the stars left to place; otherwise the
descending product unknowns * (unknowns - 1) * ... over the missing stars
(stated below the usize range, where the Rust product does not wrap). -/
theorem C8_amended_combinaisons_count (h : GridHandler) (g : Grid) (s : GridSurfer)
    (nb_stars : Nat)
    (hdf : Nat.descFactorial (h.surfer_cells_with_value_count g s CellValue.Unknown)
      (nb_stars - h.surfer_cells_with_value_count g s CellValue.Star) < usizeMax) :
    (combinaisons_count h g s nb_stars =
      if nb_stars ≤ h.surfer_cells_with_value_count g s CellValue.Star then usizeMax
      else if h.surfer_cells_with_value_count g s CellValue.Unknown ≤
          nb_stars - h.surfer_cells_with_value_count g s CellValue.Star then 0
      else Nat.descFactorial (h.surfer_cells_with_value_count g s CellValue.Unknown)
        (nb_stars - h.surfer_cells_with_value_count g s CellValue.Star)) ∧
    (combinaisons_count h g s nb_stars = usizeMax ↔
      nb_stars ≤ h.surfer_cells_with_value_count g s CellValue.Star) ∧
    (combinaisons_count h g s nb_stars = 0 ↔
      (h.surfer_cells_with_value_count g s CellValue.Star < nb_stars ∧
        h.surfer_cells_with_value_count g s CellValue.Unknown ≤
          nb_stars - h.surfer_cells_with_value_count g s CellValue.Star)) := by
  have husz : usizeMax < 2 ^ 64 := by norm_num [usizeMax]
  have hmain : combinaisons_count h g s nb_stars =
      if nb_stars ≤ h.surfer_cells_with_value_count g s CellValue.Star then usizeMax
      else if h.surfer_cells_with_value_count g s CellValue.Unknown ≤
          nb_stars - h.surfer_cells_with_value_count g s CellValue.Star then 0
      else Nat.descFactorial (h.surfer_cells_with_value_count g s CellValue.Unknown)
        (nb_stars - h.surfer_cells_with_value_count g s CellValue.Star) := by
    unfold combinaisons_count
    show (if nb_stars ≤ h.surfer_cells_with_value_count g s CellValue.Star then usizeMax
      else if h.surfer_cells_with_value_count g s CellValue.Unknown ≤
          nb_stars - h.surfer_cells_with_value_count g s CellValue.Star then 0
      else combLoop 1 (h.surfer_cells_with_value_count g s CellValue.Unknown)
        (nb_stars - h.surfer_cells_with_value_count g s CellValue.Star)) = _
    split_ifs with h1 h2
    · rfl
    · rfl
    · rw [combLoop_eq _ 1 _ (by norm_num), Nat.one_mul,
        Nat.mod_eq_of_lt (lt_trans hdf husz)]
  refine ⟨hmain, ?_, ?_⟩
  · rw [hmain]
    split_ifs with h1 h2
    · simp [h1]
    · constructor
      · intro hx; exact absurd hx.symm (by norm_num [usizeMax])
      · intro hx; exact absurd hx h1
    · constructor
      · intro hx; exact absurd (hx ▸ hdf) (lt_irrefl _)
      · intro hx; exact absurd hx h1
  · rw [hmain]
    split_ifs with h1 h2
    · constructor
      · intro hx; exact absurd hx.symm (by norm_num [usizeMax])
      · intro hx; omega
    · constructor
      · intro _; exact ⟨by omega, h2⟩
      · intro _; rfl
    · constructor
      · intro hx
        have := Nat.descFactorial_eq_zero_iff_lt.mp hx
        omega
      · intro hx; exact absurd hx.2 h2

/-- C8 witness: on the empty 5x5 test grid, region A has two Unknown cells
and one star to place, so the cost is 2. -/
theorem C8_witness :
    combinaisons_count hTest (Grid.fromHandler hTest) (GridSurfer.Region 'A') 1 = 2 := by
  have h := (C8_amended_combinaisons_count hTest (Grid.fromHandler hTest)
    (GridSurfer.Region 'A') 1 (by decide)).1
  rw [h]
  decide

/-- C8 counterexample: with region A reduced to a single Unknown cell and one
star to place, the function returns 0, although the product claimed by the
specification is descFactorial 1 1 = 1 and a completion exists (placing the
star there passes check_bad_rules), so 0 does not mean provable
impossibility. -/
theorem C8_counterexample :
    combinaisons_count hTest gC8 (GridSurfer.Region 'A') 1 = 0 ∧
    hTest.surfer_cells_with_value_count gC8 (GridSurfer.Region 'A') CellValue.Star = 0 ∧
    hTest.surfer_cells_with_value_count gC8 (GridSurfer.Region 'A') CellValue.Unknown = 1 ∧
    Nat.descFactorial 1 1 = 1 ∧
    check_bad_rules hTest (gC8.apply_action (.SetStar (LineColumn.mk 1 0))) = .ok () ∧
    hTest.surfer_cells_with_value_count (gC8.apply_action (.SetStar (LineColumn.mk 1 0)))
        (GridSurfer.Region 'A') CellValue.Star = 1 := by
  refine ⟨rfl, rfl, rfl, rfl, rfl, rfl⟩

theorem setCellValue_rowlen (g : Grid) (lc : LineColumn) (v : CellValue) (i : Nat) :
    ((g.setCellValue lc v).cells.getD i []).length = (g.cells.getD i []).length := by
  show ((updateCells lc.line lc.column v g.cells).getD i []).length = _
  by_cases hi : i = lc.line
  · rw [hi, updateCells_getD_self]
    exact updateCellRow_length v _ lc.column
  · rw [updateCells_getD_ne v g.cells lc.line i lc.column hi]

theorem cell_value_setCellValue_cases (g : Grid) (lc lc' : LineColumn) (v : CellValue) :
    ((g.setCellValue lc' v).cell lc).value = (g.cell lc).value ∨
      (lc = lc' ∧ ((g.setCellValue lc' v).cell lc).value = v) := by
  by_cases he : lc = lc'
  · subst he
    by_cases hb : lc.column < (g.cells.getD lc.line []).length
    · right
      exact ⟨rfl, by rw [Grid.cell_setCellValue_same g lc v hb]⟩
    · left
      show (((updateCells lc.line lc.column v g.cells).getD lc.line []).getD
        lc.column default).value = ((g.cells.getD lc.line []).getD lc.column default).value
      rw [updateCells_getD_self]
      have h1 : (g.cells.getD lc.line []).length ≤ lc.column := by omega
      have h2 : (updateCellRow lc.column v (g.cells.getD lc.line [])).length ≤ lc.column := by
        rw [updateCellRow_length]; omega
      rw [List.getD_eq_default _ _ h2, List.getD_eq_default _ _ h1]
  · left
    rw [Grid.cell_setCellValue_ne g lc' lc v he]

theorem adjacencyOk_mono (h : GridHandler) (g g' : Grid)
    (hsub : ∀ lc : LineColumn,
      (g'.cell lc).value = CellValue.Star → (g.cell lc).value = CellValue.Star) :
    adjacencyOk h g → adjacencyOk h g' := by
  intro hok lc hmem hstar a ha hstar'
  exact (hok lc hmem (hsub lc hstar) a ha) (hsub a hstar')

theorem star_subset_setNoStar (g : Grid) (lc' lc : LineColumn) :
    ((g.setCellValue lc' CellValue.NoStar).cell lc).value = CellValue.Star →
      (g.cell lc).value = CellValue.Star := by
  intro hs
  rcases cell_value_setCellValue_cases g lc lc' .NoStar with hc | ⟨_, hc⟩
  · rw [← hc]; exact hs
  · rw [hc] at hs; exact absurd hs (by simp)

theorem setNoStar_on_unknown_star_iff (g : Grid) (lc' lc : LineColumn)
    (hu : (g.cell lc').value = CellValue.Unknown) :
    ((g.setCellValue lc' CellValue.NoStar).cell lc).value = CellValue.Star ↔
      (g.cell lc).value = CellValue.Star := by
  rcases cell_value_setCellValue_cases g lc lc' .NoStar with hc | ⟨heq, hc⟩
  · rw [hc]
  · subst heq
    rw [hc, hu]
    constructor
    · intro hx; exact absurd hx (by simp)
    · intro hx; exact absurd hx (by simp)

theorem fillZoneNoStar_cons (z : LineColumn) (zs : List LineColumn) (g : Grid) :
    fillZoneNoStar (z :: zs) g =
      fillZoneNoStar zs
        (if (g.cell z).value = CellValue.Unknown then g.setCellValue z .NoStar else g) := rfl

theorem fillZoneNoStar_star_iff :
    ∀ (zone : List LineColumn) (g : Grid) (lc : LineColumn),
      ((fillZoneNoStar zone g).cell lc).value = CellValue.Star ↔
        (g.cell lc).value = CellValue.Star := by
  intro zone
  induction zone with
  | nil => intro g lc; exact Iff.rfl
  | cons z zs ih =>
    intro g lc
    rw [fillZoneNoStar_cons]
    by_cases hu : (g.cell z).value = CellValue.Unknown
    · rw [if_pos hu, ih, setNoStar_on_unknown_star_iff g z lc hu]
    · rw [if_neg hu, ih]

theorem zoneStarCount_congr (g g' : Grid) (zone : List LineColumn)
    (hiff : ∀ lc : LineColumn,
      ((g'.cell lc).value = CellValue.Star ↔ (g.cell lc).value = CellValue.Star)) :
    zoneStarCount g' zone = zoneStarCount g zone := by
  unfold zoneStarCount
  congr 1
  apply List.filter_congr
  intro lc _
  exact decide_eq_decide.mpr (hiff lc)

theorem fillZoneNoStar_preserves_not_unknown :
    ∀ (zone : List LineColumn) (g : Grid) (lc : LineColumn),
      (g.cell lc).value ≠ CellValue.Unknown →
      ((fillZoneNoStar zone g).cell lc).value ≠ CellValue.Unknown := by
  intro zone
  induction zone with
  | nil => intro g lc hlc; exact hlc
  | cons z zs ih =>
    intro g lc hlc
    rw [fillZoneNoStar_cons]
    by_cases hu : (g.cell z).value = CellValue.Unknown
    · rw [if_pos hu]
      apply ih
      rcases cell_value_setCellValue_cases g lc z .NoStar with hc | ⟨_, hc⟩
      · rw [hc]; exact hlc
      · rw [hc]; simp
    · rw [if_neg hu]
      exact ih g lc hlc

theorem fillZoneNoStar_zone_not_unknown :
    ∀ (zone : List LineColumn) (g : Grid),
      (∀ lc ∈ zone, lc.column < (g.cells.getD lc.line []).length) →
      ∀ lc ∈ zone, ((fillZoneNoStar zone g).cell lc).value ≠ CellValue.Unknown := by
  intro zone
  induction zone with
  | nil => intro g _ lc hlc; exact absurd hlc (by simp)
  | cons z zs ih =>
    intro g hb lc hlc
    rw [fillZoneNoStar_cons]
    rcases List.mem_cons.mp hlc with hh | hh
    · subst hh
      by_cases hu : (g.cell lc).value = CellValue.Unknown
      · rw [if_pos hu]
        apply fillZoneNoStar_preserves_not_unknown
        rw [Grid.cell_setCellValue_same g lc .NoStar (hb lc (List.mem_cons_self lc zs))]
        simp
      · rw [if_neg hu]
        exact fillZoneNoStar_preserves_not_unknown zs g lc hu
    · by_cases hu : (g.cell z).value = CellValue.Unknown
      · rw [if_pos hu]
        apply ih
        · intro lc' hlc'
          rw [setCellValue_rowlen]
          exact hb lc' (List.mem_cons_of_mem z hlc')
        · exact hh
      · rw [if_neg hu]
        exact ih g (fun lc' hlc' => hb lc' (List.mem_cons_of_mem z hlc')) lc hh

theorem setStarWithNeighbors_rowlen (h : GridHandler) (g : Grid) (lc : LineColumn) (i : Nat) :
    ((setStarWithNeighbors h g lc).cells.getD i []).length = (g.cells.getD i []).length := by
  unfold setStarWithNeighbors
  have haux : ∀ (l : List LineColumn) (acc : Grid),
      ((l.foldl (fun acc a =>
        match (g.cell a).value with
        | .Unknown => acc.setCellValue a .NoStar
        | _ => acc) acc).cells.getD i []).length = (acc.cells.getD i []).length := by
    intro l
    induction l with
    | nil => intro acc; rfl
    | cons a rest ihl =>
      intro acc
      rw [List.foldl_cons]
      rw [ihl]
      cases (g.cell a).value <;> first | rfl | exact setCellValue_rowlen acc a .NoStar i
  rw [haux]
  exact setCellValue_rowlen g lc .Star i

theorem adjacencyOk_of_check_ok (h : GridHandler) (g : Grid) :
    check_bad_rules h g = .ok () → adjacencyOk h g := by
  intro hc
  rw [check_bad_rules_eq] at hc
  cases hadj : check_no_star_adjacent h g with
  | error e => rw [hadj] at hc; exact absurd hc (by simp)
  | ok u => cases u; exact (adjacencyOk_iff h g).mpr hadj

theorem collectRecAux_succ (h : GridHandler) (zone : List LineColumn) (K n : Nat) (g : Grid) :
    collectRecAux h zone K (n + 1) g =
      if zoneStarCount g zone = K then [fillZoneNoStar zone g]
      else
        match firstPossibleStarCell h g zone with
        | none => []
        | some lc =>
          (if check_bad_rules h (setStarWithNeighbors h g lc) = .ok () then
            collectRecAux h zone K n (setStarWithNeighbors h g lc)
          else []) ++
          collectRecAux h zone K n (g.setCellValue lc .NoStar) := rfl

theorem collectRecAux_invariants (h : GridHandler) (zone : List LineColumn) (K : Nat) :
    ∀ (fuel : Nat) (g : Grid),
      adjacencyOk h g →
      (∀ lc ∈ zone, lc.column < (g.cells.getD lc.line []).length) →
      ∀ g' ∈ collectRecAux h zone K fuel g,
        zoneStarCount g' zone = K ∧ adjacencyOk h g' ∧
          ∀ lc ∈ zone, (g'.cell lc).value ≠ CellValue.Unknown := by
  intro fuel
  induction fuel with
  | zero =>
    intro g _ _ g' hg'
    exact absurd hg' (by simp [collectRecAux])
  | succ n ih =>
    intro g hadj hb g' hg'
    rw [collectRecAux_succ] at hg'
    by_cases hK : zoneStarCount g zone = K
    · rw [if_pos hK] at hg'
      have hg'eq := List.mem_singleton.mp hg'
      subst hg'eq
      refine ⟨?_, ?_, ?_⟩
      · rw [zoneStarCount_congr g (fillZoneNoStar zone g) zone (fillZoneNoStar_star_iff zone g)]
        exact hK
      · exact adjacencyOk_mono h g _
          (fun lc hs => (fillZoneNoStar_star_iff zone g lc).mp hs) hadj
      · exact fillZoneNoStar_zone_not_unknown zone g hb
    · rw [if_neg hK] at hg'
      cases hp : firstPossibleStarCell h g zone with
      | none =>
        rw [hp] at hg'
        exact absurd hg' (by simp)
      | some lc =>
        rw [hp] at hg'
        rcases List.mem_append.mp hg' with hA | hB
        · by_cases hchk : check_bad_rules h (setStarWithNeighbors h g lc) = .ok ()
          · rw [if_pos hchk] at hA
            exact ih (setStarWithNeighbors h g lc) (adjacencyOk_of_check_ok h _ hchk)
              (fun lc' hlc' => by
                rw [setStarWithNeighbors_rowlen]; exact hb lc' hlc') g' hA
          · rw [if_neg hchk] at hA
            exact absurd hA (by simp)
        · exact ih (g.setCellValue lc .NoStar)
            (adjacencyOk_mono h g _ (star_subset_setNoStar g lc) hadj)
            (fun lc' hlc' => by
              rw [setCellValue_rowlen]; exact hb lc' hlc') g' hB

/-- C1 (amended): for an initial grid that passes check_bad_rules, every grid
emitted by the recursive enumerator for a zone with target K contains exactly
K stars in the zone, has no two adjacent stars anywhere, and leaves no zone
cell Unknown.  (Passing check_bad_rules does not hold for every emitted grid;
see the counterexample.) -/
theorem C1_amended_enumerator_invariants (h : GridHandler) (g : Grid)
    (zone : List LineColumn) (K : Nat)
    (hchk : check_bad_rules h g = .ok ())
    (hb : ∀ lc ∈ zone, lc.column < (g.cells.getD lc.line []).length) :
    ∀ g' ∈ collect_recursive_possible_grids h g zone K,
      zoneStarCount g' zone = K ∧ adjacencyOk h g' ∧
        ∀ lc ∈ zone, (g'.cell lc).value ≠ CellValue.Unknown := by
  intro g' hg'
  exact collectRecAux_invariants h zone K (g.unknownCountAll + 1) g
    (adjacencyOk_of_check_ok h g hchk) hb g' hg'

/-- C1 witness: the invariants applied to the concrete enumeration of region
D of the 5x5 test grid with one star already placed. -/
theorem C1_witness :
    check_bad_rules hTest gC1 = .ok () ∧
    ((collect_recursive_possible_grids hTest gC1 (hTest.surfer gC1 (.Region 'D')) 1).headD
        (Grid.fromHandler hTest) ∈
      collect_recursive_possible_grids hTest gC1 (hTest.surfer gC1 (.Region 'D')) 1) ∧
    zoneStarCount
      ((collect_recursive_possible_grids hTest gC1 (hTest.surfer gC1 (.Region 'D')) 1).headD
        (Grid.fromHandler hTest)) (hTest.surfer gC1 (.Region 'D')) = 1 ∧
    adjacencyOk hTest
      ((collect_recursive_possible_grids hTest gC1 (hTest.surfer gC1 (.Region 'D')) 1).headD
        (Grid.fromHandler hTest)) ∧
    ∀ lc ∈ hTest.surfer gC1 (.Region 'D'),
      (((collect_recursive_possible_grids hTest gC1 (hTest.surfer gC1 (.Region 'D')) 1).headD
        (Grid.fromHandler hTest)).cell lc).value ≠ CellValue.Unknown :=
  ⟨by decide, by decide,
    C1_amended_enumerator_invariants hTest gC1 (hTest.surfer gC1 (.Region 'D')) 1
      (by decide) (by decide) _ (by decide)⟩

/-- C1 counterexample: region D of the test grid already holds its star, so
the enumerator emits exactly one grid, obtained by filling the Unknown cells
of D with NoStar, and that grid fails check_bad_rules (line 3 can no longer
receive a star).  The claim that every emitted grid passes check_bad_rules is
false. -/
theorem C1_counterexample :
    check_bad_rules hTest gC1 = .ok () ∧
    (collect_recursive_possible_grids hTest gC1 (hTest.surfer gC1 (.Region 'D')) 1).length
      = 1 ∧
    ∀ g' ∈ collect_recursive_possible_grids hTest gC1 (hTest.surfer gC1 (.Region 'D')) 1,
      check_bad_rules hTest g' = .error (.NotEnoughStarsInZone (.Line 3)) := by
  refine ⟨by decide, by decide, by decide⟩

theorem findSome?_rules_none (h : GridHandler) (g : Grid) :
    ∀ fs : List (GridHandler → Grid → Option GoodRule),
      (∀ f ∈ fs, f h g = none) → (fs.findSome? fun f => f h g) = none := by
  intro fs
  induction fs with
  | nil => intro _; rfl
  | cons f rest ih =>
    intro hall
    simp only [List.findSome?_cons, hall f (List.mem_cons_self f rest)]
    exact ih fun f' hf' => hall f' (List.mem_cons_of_mem f hf')

theorem findSome?_rules_at (h : GridHandler) (g : Grid) :
    ∀ (fs : List (GridHandler → Grid → Option GoodRule)) (i : Nat), i < fs.length →
      (∀ j, j < i → (fs.getD j noRule) h g = none) →
      ∀ r : GoodRule, (fs.getD i noRule) h g = some r →
        (fs.findSome? fun f => f h g) = some r := by
  intro fs
  induction fs with
  | nil => intro i hi; exact absurd hi (by simp)
  | cons f rest ih =>
    intro i hi hprev r hr
    cases i with
    | zero =>
      have hf : f h g = some r := hr
      simp only [List.findSome?_cons, hf]
    | succ n =>
      have hf : f h g = none := hprev 0 (Nat.succ_pos n)
      simp only [List.findSome?_cons, hf]
      exact ih n (by simpa using hi) (fun j hj => hprev (j + 1) (by omega)) r hr

/-- C2: get_good_rule propagates any check_bad_rules error, returns Ok(None)
on a done grid, otherwise returns the result of the first rule of the fixed
sequence that produces a deduction, and Ok(None), not an error, when no rule
fires. -/
theorem C2_get_good_rule_pipeline (h : GridHandler) (g : Grid) :
    (∀ e : BadRuleError, check_bad_rules h g = .error e → get_good_rule h g = .error e) ∧
    (check_bad_rules h g = .ok () → h.is_done g = true → get_good_rule h g = .ok none) ∧
    (check_bad_rules h g = .ok () → h.is_done g = false →
      ∀ i : Nat, i < ruleList.length →
        (∀ j, j < i → (ruleList.getD j noRule) h g = none) →
        ∀ r : GoodRule, (ruleList.getD i noRule) h g = some r →
          get_good_rule h g = .ok (some r)) ∧
    (check_bad_rules h g = .ok () → h.is_done g = false →
      (∀ f ∈ ruleList, f h g = none) → get_good_rule h g = .ok none) := by
  refine ⟨?_, ?_, ?_, ?_⟩
  · intro e he
    unfold get_good_rule
    rw [he]
  · intro hok hdone
    unfold get_good_rule
    rw [hok]
    simp [hdone]
  · intro hok hdone i hi hprev r hr
    have hfind := findSome?_rules_at h g ruleList i hi hprev r hr
    unfold get_good_rule
    rw [hok]
    simp [hdone, hfind]
  · intro hok hdone hall
    have hfind := findSome?_rules_none h g ruleList hall
    unfold get_good_rule
    rw [hok]
    simp [hdone, hfind]

/-- C2 witness: on the test grid with a central star, the first rule of the
sequence fires and get_good_rule returns its deduction. -/
theorem C2_witness :
    get_good_rule hTest gC2 =
      .ok (some (.NoStarAdjacentToStar (LineColumn.mk 2 2)
        [.SetNoStar (LineColumn.mk 1 2), .SetNoStar (LineColumn.mk 1 1),
         .SetNoStar (LineColumn.mk 1 3), .SetNoStar (LineColumn.mk 2 1),
         .SetNoStar (LineColumn.mk 3 1), .SetNoStar (LineColumn.mk 3 2),
         .SetNoStar (LineColumn.mk 3 3), .SetNoStar (LineColumn.mk 2 3)])) :=
  (C2_get_good_rule_pipeline hTest gC2).2.2.1 (by rfl) (by rfl) 0 (by decide)
    (fun j hj => absurd hj (Nat.not_lt_zero j)) _ (by rfl)

theorem check_for_invariants_unknown (h : GridHandler) (g : Grid) (grids : List Grid) :
    ∀ a ∈ check_for_invariants h g grids,
      (g.cell a.line_column).value = CellValue.Unknown := by
  intro a ha
  unfold check_for_invariants at ha
  rcases List.mem_filterMap.mp ha with ⟨p, hp, hpa⟩
  have hcells := (List.of_mem_zip hp).1
  have hunk := (List.mem_filter.mp hcells).2
  simp only [decide_eq_true_eq] at hunk
  rcases p with ⟨lc, v⟩
  cases v with
  | Init => exact absurd hpa (by simp)
  | Star =>
    have : a = GridAction.SetStar lc := by simpa using hpa.symm
    rw [this]
    exact hunk
  | NoStar =>
    have : a = GridAction.SetNoStar lc := by simpa using hpa.symm
    rw [this]
    exact hunk
  | Unknown => exact absurd hpa (by simp)
  | Variable => exact absurd hpa (by simp)

theorem check_for_star_adjacents_unknown (h : GridHandler) (g : Grid) (grids : List Grid) :
    ∀ a ∈ check_for_star_adjacents h g grids,
      (g.cell a.line_column).value = CellValue.Unknown := by
  intro a ha
  unfold check_for_star_adjacents at ha
  rcases List.mem_filterMap.mp ha with ⟨p, hp, hpa⟩
  have hcells := (List.of_mem_zip hp).1
  have hunk := (List.mem_filter.mp hcells).2
  simp only [decide_eq_true_eq] at hunk
  by_cases hs : p.2 = StarAdjacentState.Always
  · rw [if_pos hs] at hpa
    have : a = GridAction.SetNoStar p.1 := by simpa using hpa.symm
    rw [this]
    exact hunk
  · rw [if_neg hs] at hpa
    exact absurd hpa (by simp)

theorem mergeDedup_subset :
    ∀ (sa inv : List GridAction) (a : GridAction),
      a ∈ mergeDedup inv sa → a ∈ inv ∨ a ∈ sa := by
  intro sa
  induction sa with
  | nil => intro inv a ha; exact Or.inl ha
  | cons x xs ih =>
    intro inv a ha
    have ha' : a ∈ mergeDedup (if x ∈ inv then inv else inv ++ [x]) xs := ha
    rcases ih _ a ha' with hl | hr
    · by_cases hx : x ∈ inv
      · rw [if_pos hx] at hl
        exact Or.inl hl
      · rw [if_neg hx] at hl
        rcases List.mem_append.mp hl with h1 | h1
        · exact Or.inl h1
        · refine Or.inr ?_
          rw [List.mem_singleton.mp h1]
          exact List.mem_cons_self x xs
    · exact Or.inr (List.mem_cons_of_mem x hr)

theorem try_star_complete_region_unknown (h : GridHandler) (g : Grid) (gs : GridSurfer)
    (nb_stars : Nat) :
    ∀ a ∈ (try_star_complete_region h g gs nb_stars).1,
      (g.cell a.line_column).value = CellValue.Unknown := by
  intro a ha
  rcases mergeDedup_subset _ _ a ha with hl | hr
  · exact check_for_invariants_unknown h g _ a hl
  · exact check_for_star_adjacents_unknown h g _ a hr

theorem rule_region_possible_stars_unknown (h : GridHandler) (g : Grid) (r : GoodRule) :
    rule_region_possible_stars h g = some r →
    ∀ a ∈ r.actions, (g.cell a.line_column).value = CellValue.Unknown := by
  unfold rule_region_possible_stars
  have haux : ∀ (regs : List Region) (best : Option (GridSurfer × Nat × List GridAction)),
      (∀ b, best = some b → ∀ a ∈ b.2.2, (g.cell a.line_column).value = CellValue.Unknown) →
      ∀ b, regs.foldl (fun best region =>
          let r := try_star_complete_region h g (.Region region) h.nb_stars
          bestCollectorStep best (.Region region) r.2 r.1) best = some b →
        ∀ a ∈ b.2.2, (g.cell a.line_column).value = CellValue.Unknown := by
    intro regs
    induction regs with
    | nil => intro best hbest b hb; exact hbest b hb
    | cons reg rest ih =>
      intro best hbest b hb
      rw [List.foldl_cons] at hb
      refine ih (bestCollectorStep best (.Region reg)
        (try_star_complete_region h g (.Region reg) h.nb_stars).2
        (try_star_complete_region h g (.Region reg) h.nb_stars).1) ?_ b hb
      intro b' hb'
      unfold bestCollectorStep at hb'
      by_cases hempty : (try_star_complete_region h g (.Region reg) h.nb_stars).1.isEmpty
      · rw [if_pos hempty] at hb'
        exact hbest b' hb'
      · rw [if_neg hempty] at hb'
        revert hb'
        cases hbb : best with
        | none =>
          intro hb'
          have : b' = (GridSurfer.Region reg,
              (try_star_complete_region h g (.Region reg) h.nb_stars).2,
              (try_star_complete_region h g (.Region reg) h.nb_stars).1) := by
            simpa using hb'.symm
          rw [this]
          exact try_star_complete_region_unknown h g _ _
        | some bold =>
          intro hb'
          have hb2 : (if (try_star_complete_region h g (.Region reg) h.nb_stars).2 < bold.2.1
              then some (GridSurfer.Region reg,
                (try_star_complete_region h g (.Region reg) h.nb_stars).2,
                (try_star_complete_region h g (.Region reg) h.nb_stars).1)
              else some bold) = some b' := hb'
          by_cases hlt : (try_star_complete_region h g (.Region reg) h.nb_stars).2 < bold.2.1
          · rw [if_pos hlt] at hb2
            have : b' = (GridSurfer.Region reg,
                (try_star_complete_region h g (.Region reg) h.nb_stars).2,
                (try_star_complete_region h g (.Region reg) h.nb_stars).1) := by
              simpa using hb2.symm
            rw [this]
            exact try_star_complete_region_unknown h g _ _
          · rw [if_neg hlt] at hb2
            have : b' = bold := by simpa using hb2.symm
            rw [this]
            exact hbest bold hbb
  intro hr
  revert hr
  cases hfold : List.foldl _ none h.regions with
  | none => intro hr; exact absurd hr (by simp)
  | some b =>
    intro hr
    have hrb : r = .InvariantWithZone b.1 b.2.2 := by simpa using hr.symm
    rw [hrb]
    exact haux h.regions none (by intro b' hb'; exact absurd hb' (by simp)) b hfold

theorem rule_possible_stars_unknown (h : GridHandler) (g : Grid) (zt : ZoneToExamine)
    (r : GoodRule) :
    rule_possible_stars h g zt = some r →
    ∀ a ∈ r.actions, (g.cell a.line_column).value = CellValue.Unknown := by
  intro hr
  unfold rule_possible_stars at hr
  rcases List.exists_of_findSome?_eq_some hr with ⟨z, _, hz⟩
  by_cases he : (try_star_complete_zone h g z.1 z.2.1).isEmpty
  · rw [if_pos he] at hz
    exact absurd hz (by simp)
  · rw [if_neg he] at hz
    have hrz : r = .InvariantWithZone z.1 (try_star_complete_zone h g z.1 z.2.1) := by
      simpa using hz.symm
    rw [hrz]
    intro a ha
    exact check_for_invariants_unknown h g _ a ha

theorem more_generic_exclusions_unknown (h : GridHandler) (g : Grid) (n : Nat)
    (gs : GridSurfer) (p : List Region × List LineColumn) :
    rule_region_more_generic_exclusions h g n gs = some p →
    ∀ lc ∈ p.2, (g.cell lc).value = CellValue.Unknown := by
  intro hp
  have hp2 : (match exclusionsScanRegions g n (h.surfer g gs) [] with
    | none => (none : Option (List Region × List LineColumn))
    | some vec_regions =>
      if ((h.surfer g .AllCells).filter fun lc =>
          decide (lc ∉ h.surfer g gs) && decide ((g.cell lc).value = CellValue.Unknown) &&
            decide ((g.cell lc).region ∈ vec_regions)).isEmpty then none
      else some (vec_regions, (h.surfer g .AllCells).filter fun lc =>
        decide (lc ∉ h.surfer g gs) && decide ((g.cell lc).value = CellValue.Unknown) &&
          decide ((g.cell lc).region ∈ vec_regions))) = some p := hp
  revert hp2
  cases hscan : exclusionsScanRegions g n (h.surfer g gs) [] with
  | none =>
    intro hp2
    exact Option.noConfusion hp2
  | some vec =>
    intro hp2
    have hp3 : (if ((h.surfer g .AllCells).filter fun lc =>
        decide (lc ∉ h.surfer g gs) && decide ((g.cell lc).value = CellValue.Unknown) &&
          decide ((g.cell lc).region ∈ vec)).isEmpty then
          (none : Option (List Region × List LineColumn))
      else some (vec, (h.surfer g .AllCells).filter fun lc =>
        decide (lc ∉ h.surfer g gs) && decide ((g.cell lc).value = CellValue.Unknown) &&
          decide ((g.cell lc).region ∈ vec))) = some p := hp2
    by_cases he : ((h.surfer g .AllCells).filter fun lc =>
        decide (lc ∉ h.surfer g gs) && decide ((g.cell lc).value = CellValue.Unknown) &&
          decide ((g.cell lc).region ∈ vec)).isEmpty
    · rw [if_pos he] at hp3
      exact Option.noConfusion hp3
    · rw [if_neg he] at hp3
      have hpv : p = (vec, (h.surfer g .AllCells).filter fun lc =>
          decide (lc ∉ h.surfer g gs) && decide ((g.cell lc).value = CellValue.Unknown) &&
            decide ((g.cell lc).region ∈ vec)) := by
        simpa using hp3.symm
      rw [hpv]
      intro lc hlc
      have := (List.mem_filter.mp hlc).2
      simp only [Bool.and_eq_true, decide_eq_true_eq] at this
      exact this.1.2

theorem rule_region_generic_exclusions_unknown (h : GridHandler) (g : Grid) (n : Nat)
    (r : GoodRule) :
    rule_region_generic_exclusions h g n = some r →
    ∀ a ∈ r.actions, (g.cell a.line_column).value = CellValue.Unknown := by
  unfold rule_region_generic_exclusions
  have hbranch : ∀ (mk : Nat → GridSurfer) (bound : Nat),
      ∀ r' : GoodRule, ((List.range bound).findSome? fun i =>
        match rule_region_more_generic_exclusions h g n (mk i) with
        | none => none
        | some p =>
          some (GoodRule.ZoneExclusions p.1 (mk i) (p.2.map GridAction.SetNoStar))) = some r' →
      ∀ a ∈ r'.actions, (g.cell a.line_column).value = CellValue.Unknown := by
    intro mk bound r' hr' a ha
    rcases List.exists_of_findSome?_eq_some hr' with ⟨i, _, hi⟩
    revert hi
    cases hmg : rule_region_more_generic_exclusions h g n (mk i) with
    | none => intro hi; exact absurd hi (by simp)
    | some p =>
      intro hi
      have hrp : r' = .ZoneExclusions p.1 (mk i) (p.2.map GridAction.SetNoStar) := by
        simpa using hi.symm
      rw [hrp] at ha
      rcases List.mem_map.mp ha with ⟨lc, hlc, rfl⟩
      exact more_generic_exclusions_unknown h g n (mk i) p hmg lc hlc
  cases hl : (List.range (h.nb_lines - n + 1)).findSome? fun line =>
      match rule_region_more_generic_exclusions h g n (.Lines line (line + n - 1)) with
      | none => none
      | some p =>
        some (GoodRule.ZoneExclusions p.1 (.Lines line (line + n - 1))
          (p.2.map GridAction.SetNoStar)) with
  | some r0 =>
    intro hr
    have : r = r0 := by simpa using hr.symm
    rw [this]
    exact hbranch (fun line => .Lines line (line + n - 1)) (h.nb_lines - n + 1) r0 hl
  | none =>
    intro hr
    exact hbranch (fun column => .Columns column (column + n - 1)) (h.nb_columns - n + 1) r hr

theorem combinationsBranch_unknown (h : GridHandler) (g : Grid) (vec : List Region)
    (gsurf : GridSurfer) (r : GoodRule) :
    combinationsBranch h g vec gsurf = some r →
    ∀ a ∈ r.actions, (g.cell a.line_column).value = CellValue.Unknown := by
  intro hb a ha
  have hb2 : (if ((h.surfer g gsurf).filter fun lc =>
      decide ((g.cell lc).value = CellValue.Unknown) &&
        decide ((g.cell lc).region ∉ vec)).isEmpty then (none : Option GoodRule)
    else some (.ZoneCombinations vec gsurf
      (((h.surfer g gsurf).filter fun lc =>
        decide ((g.cell lc).value = CellValue.Unknown) &&
          decide ((g.cell lc).region ∉ vec)).map GridAction.SetNoStar))) = some r := hb
  by_cases he : ((h.surfer g gsurf).filter fun lc =>
      decide ((g.cell lc).value = CellValue.Unknown) &&
        decide ((g.cell lc).region ∉ vec)).isEmpty
  · rw [if_pos he] at hb2
    exact Option.noConfusion hb2
  · rw [if_neg he] at hb2
    have hr : r = .ZoneCombinations vec gsurf
        (((h.surfer g gsurf).filter fun lc =>
          decide ((g.cell lc).value = CellValue.Unknown) &&
            decide ((g.cell lc).region ∉ vec)).map GridAction.SetNoStar) := by
      simpa using hb2.symm
    rw [hr] at ha
    rcases List.mem_map.mp ha with ⟨lc, hlc, rfl⟩
    have := (List.mem_filter.mp hlc).2
    simp only [Bool.and_eq_true, decide_eq_true_eq] at this
    exact this.1

theorem rule_region_generic_combinations_unknown (h : GridHandler) (g : Grid) (n : Nat)
    (r : GoodRule) :
    rule_region_generic_combinations h g n = some r →
    ∀ a ∈ r.actions, (g.cell a.line_column).value = CellValue.Unknown := by
  intro hr
  unfold rule_region_generic_combinations at hr
  rcases List.exists_of_findSome?_eq_some hr with ⟨vec, _, hvec⟩
  have hv2 : (match (if (combinationsBox g (h.surfer g .AllCells) vec).2.1 -
        (combinationsBox g (h.surfer g .AllCells) vec).1 + 1 = n then
      combinationsBranch h g vec
        (.Lines (combinationsBox g (h.surfer g .AllCells) vec).1
          (combinationsBox g (h.surfer g .AllCells) vec).2.1)
    else none) with
    | some r0 => some r0
    | none =>
      if (combinationsBox g (h.surfer g .AllCells) vec).2.2.2 -
          (combinationsBox g (h.surfer g .AllCells) vec).2.2.1 + 1 = n then
        combinationsBranch h g vec
          (.Columns (combinationsBox g (h.surfer g .AllCells) vec).2.2.1
            (combinationsBox g (h.surfer g .AllCells) vec).2.2.2)
      else none) = some r := hvec
  revert hv2
  cases hfirst : (if (combinationsBox g (h.surfer g .AllCells) vec).2.1 -
        (combinationsBox g (h.surfer g .AllCells) vec).1 + 1 = n then
      combinationsBranch h g vec
        (.Lines (combinationsBox g (h.surfer g .AllCells) vec).1
          (combinationsBox g (h.surfer g .AllCells) vec).2.1)
    else none) with
  | some r0 =>
    intro hv2
    have hrr : r0 = r := by simpa using hv2
    subst hrr
    by_cases hc1 : (combinationsBox g (h.surfer g .AllCells) vec).2.1 -
        (combinationsBox g (h.surfer g .AllCells) vec).1 + 1 = n
    · rw [if_pos hc1] at hfirst
      exact combinationsBranch_unknown h g vec _ r0 hfirst
    · rw [if_neg hc1] at hfirst
      exact Option.noConfusion hfirst
  | none =>
    intro hv2
    have hv3 : (if (combinationsBox g (h.surfer g .AllCells) vec).2.2.2 -
        (combinationsBox g (h.surfer g .AllCells) vec).2.2.1 + 1 = n then
      combinationsBranch h g vec
        (.Columns (combinationsBox g (h.surfer g .AllCells) vec).2.2.1
          (combinationsBox g (h.surfer g .AllCells) vec).2.2.2)
    else none) = some r := hv2
    by_cases hc2 : (combinationsBox g (h.surfer g .AllCells) vec).2.2.2 -
        (combinationsBox g (h.surfer g .AllCells) vec).2.2.1 + 1 = n
    · rw [if_pos hc2] at hv3
      exact combinationsBranch_unknown h g vec _ r hv3
    · rw [if_neg hc2] at hv3
      exact Option.noConfusion hv3

theorem countsAndUnknowns_unknown (g : Grid) :
    ∀ (l : List LineColumn) (acc : Nat × Nat × List LineColumn),
      (∀ lc ∈ acc.2.2, (g.cell lc).value = CellValue.Unknown) →
      ∀ lc ∈ (l.foldl
        (fun (acc : Nat × Nat × List LineColumn) lc =>
          match (g.cell lc).value with
          | .Star => (acc.1 + 1, acc.2.1, acc.2.2)
          | .NoStar => acc
          | .Unknown => (acc.1, acc.2.1 + 1, acc.2.2 ++ [lc])) acc).2.2,
        (g.cell lc).value = CellValue.Unknown := by
  intro l
  induction l with
  | nil => intro acc hacc lc hlc; exact hacc lc hlc
  | cons x xs ih =>
    intro acc hacc lc hlc
    rw [List.foldl_cons] at hlc
    revert hlc
    cases hv : (g.cell x).value with
    | Star =>
      intro hlc
      exact ih _ (by intro lc' h'; exact hacc lc' h') lc hlc
    | NoStar =>
      intro hlc
      exact ih _ hacc lc hlc
    | Unknown =>
      intro hlc
      refine ih _ ?_ lc hlc
      intro lc' h'
      rcases List.mem_append.mp h' with hm | hm
      · exact hacc lc' hm
      · rw [List.mem_singleton.mp hm]
        exact hv

theorem try_value_completed_unknown (h : GridHandler) (g : Grid) (gs : GridSurfer)
    (nb_stars : Nat) (r : GoodRule) :
    try_value_completed h g gs nb_stars = some r →
    ∀ a ∈ r.actions, (g.cell a.line_column).value = CellValue.Unknown := by
  intro hr a ha
  unfold try_value_completed at hr
  have hunk : ∀ lc ∈ (countsAndUnknowns g (h.surfer g gs)).2.2,
      (g.cell lc).value = CellValue.Unknown := by
    intro lc hlc
    exact countsAndUnknowns_unknown g (h.surfer g gs) (0, 0, []) (by simp) lc hlc
  revert hr
  by_cases h0 : 0 < (countsAndUnknowns g (h.surfer g gs)).2.1
  · rw [if_pos h0]
    by_cases h1 : (countsAndUnknowns g (h.surfer g gs)).1 = nb_stars
    · rw [if_pos h1]
      intro hr
      have : r = .ZoneNoStarCompleted gs
          ((countsAndUnknowns g (h.surfer g gs)).2.2.map GridAction.SetNoStar) := by
        simpa using hr.symm
      rw [this] at ha
      rcases List.mem_map.mp ha with ⟨lc, hlc, rfl⟩
      exact hunk lc hlc
    · rw [if_neg h1]
      by_cases h2 : (countsAndUnknowns g (h.surfer g gs)).2.1 =
          nb_stars - (countsAndUnknowns g (h.surfer g gs)).1
      · rw [if_pos h2]
        intro hr
        have : r = .ZoneStarCompleted gs
            ((countsAndUnknowns g (h.surfer g gs)).2.2.map GridAction.SetStar) := by
          simpa using hr.symm
        rw [this] at ha
        rcases List.mem_map.mp ha with ⟨lc, hlc, rfl⟩
        exact hunk lc hlc
      · rw [if_neg h2]
        intro hr
        exact absurd hr (by simp)
  · rw [if_neg h0]
    intro hr
    exact absurd hr (by simp)

theorem rule_value_completed_unknown (h : GridHandler) (g : Grid) (r : GoodRule) :
    rule_value_completed h g = some r →
    ∀ a ∈ r.actions, (g.cell a.line_column).value = CellValue.Unknown := by
  intro hr
  unfold rule_value_completed at hr
  rcases List.exists_of_findSome?_eq_some hr with ⟨z, _, hz⟩
  exact try_value_completed_unknown h g z h.nb_stars r hz

theorem rule_no_star_adjacent_actions_unknown (h : GridHandler) (g : Grid) (r : GoodRule) :
    rule_no_star_adjacent_to_star h g = some r →
    ∀ a ∈ r.actions, (g.cell a.line_column).value = CellValue.Unknown := by
  intro hr a ha
  unfold rule_no_star_adjacent_to_star at hr
  rcases List.exists_of_findSome?_eq_some hr with ⟨lc, _, hlc⟩
  revert hlc
  by_cases hs : (g.cell lc).value = CellValue.Star
  · rw [if_pos hs]
    by_cases he : (((h.adjacent_cells lc).filter fun a' =>
        decide ((g.cell a').value = CellValue.Unknown)).map GridAction.SetNoStar).isEmpty
    · rw [if_pos he]
      intro hlc
      exact absurd hlc (by simp)
    · rw [if_neg he]
      intro hlc
      have : r = .NoStarAdjacentToStar lc
          (((h.adjacent_cells lc).filter fun a' =>
            decide ((g.cell a').value = CellValue.Unknown)).map GridAction.SetNoStar) := by
        simpa using hlc.symm
      rw [this] at ha
      rcases List.mem_map.mp ha with ⟨lc', hlc', rfl⟩
      have := (List.mem_filter.mp hlc').2
      simpa using this
  · rw [if_neg hs]
    intro hlc
    exact absurd hlc (by simp)

/-- C4 (amended): a deduction returned by get_good_rule only carries actions
that set cells which are Unknown in the current grid (applying it never
overwrites a determined cell); applying it does not in general preserve
check_bad_rules, see the counterexample. -/
theorem C4_amended_actions_unknown (h : GridHandler) (g : Grid) (d : GoodRule) :
    get_good_rule h g = .ok (some d) →
    ∀ a ∈ d.actions, (g.cell a.line_column).value = CellValue.Unknown := by
  intro hgr
  unfold get_good_rule at hgr
  revert hgr
  cases hchk : check_bad_rules h g with
  | error e => intro hgr; exact absurd hgr (by simp)
  | ok u =>
    cases u
    by_cases hdone : h.is_done g
    · rw [if_pos hdone]
      intro hgr
      exact absurd hgr (by simp)
    · rw [if_neg hdone]
      intro hgr
      have hfind : (ruleList.findSome? fun f => f h g) = some d := by
        simpa using hgr
      rcases List.exists_of_findSome?_eq_some hfind with ⟨f, hf, hfd⟩
      simp only [ruleList, List.mem_cons, List.not_mem_nil, or_false] at hf
      rcases hf with rfl|rfl|rfl|rfl|rfl|rfl|rfl|rfl|rfl|rfl|rfl|rfl|rfl|rfl|rfl|rfl
      · exact rule_no_star_adjacent_actions_unknown h g d hfd
      · exact rule_value_completed_unknown h g d hfd
      · exact rule_region_generic_exclusions_unknown h g 1 d hfd
      · exact rule_region_generic_combinations_unknown h g 1 d hfd
      · exact rule_region_possible_stars_unknown h g d hfd
      · exact rule_region_generic_exclusions_unknown h g 2 d hfd
      · exact rule_region_generic_combinations_unknown h g 2 d hfd
      · exact rule_possible_stars_unknown h g .Region d hfd
      · exact rule_region_generic_exclusions_unknown h g 3 d hfd
      · exact rule_region_generic_combinations_unknown h g 3 d hfd
      · exact rule_possible_stars_unknown h g .LineAndColumn d hfd
      · exact rule_region_generic_exclusions_unknown h g 4 d hfd
      · exact rule_region_generic_combinations_unknown h g 4 d hfd
      · exact rule_possible_stars_unknown h g (.MultipleLinesAndColumns 2) d hfd
      · exact rule_possible_stars_unknown h g (.MultipleLinesAndColumns 3) d hfd
      · exact rule_possible_stars_unknown h g (.MultipleLinesAndColumns 4) d hfd

/-- C4 witness: on the counterexample grid the returned deduction only
targets Unknown cells. -/
theorem C4_witness : (gC4.cell (LineColumn.mk 3 2)).value = CellValue.Unknown :=
  C4_amended_actions_unknown hTest gC4 dC4 (by rfl)
    (.SetNoStar (LineColumn.mk 3 2)) (by decide)

/-- C4 counterexample: get_good_rule returns the region-D completion
deduction on gC4, and applying its actions produces a grid that fails
check_bad_rules (line 3 has no possible star left), refuting the claim that
applying a returned deduction always preserves check_bad_rules. -/
theorem C4_counterexample :
    check_bad_rules hTest gC4 = .ok () ∧
    get_good_rule hTest gC4 = .ok (some dC4) ∧
    check_bad_rules hTest (gC4.apply_good_rule dC4) =
      .error (.NotEnoughStarsInZone (.Line 3)) := by
  exact ⟨rfl, rfl, rfl⟩

/-- A parsed row has one cell per character. -/
theorem buildRowFrom_length (line : Nat) :
    ∀ (t : List Char) (col : Nat), (buildRowFrom line col t).length = t.length := by
  intro t
  induction t with
  | nil => intro col; simp [buildRowFrom]
  | cons ch rest ih => intro col; simp [buildRowFrom, ih]

/-- The character loop on a line free of illegal characters: the regions are
folded in and the row of cells appended. -/
theorem parseLineChars_ok (line : Nat) :
    ∀ (t : List Char) (col : Nat) (regions : List Region) (acc : List GridCell),
      (∀ ch ∈ t, ch ∉ ILLEGAL_REGION_CHARS) →
      parseLineChars line col regions acc t =
        .ok (insertRegions regions t, acc ++ buildRowFrom line col t) := by
  intro t
  induction t with
  | nil => intro col regions acc _; simp [parseLineChars, insertRegions, buildRowFrom]
  | cons ch rest ih =>
    intro col regions acc hleg
    have hch : ch ∉ ILLEGAL_REGION_CHARS := hleg ch (List.mem_cons_self ch rest)
    have hrest : ∀ c ∈ rest, c ∉ ILLEGAL_REGION_CHARS := fun c hc =>
      hleg c (List.mem_cons_of_mem ch hc)
    simp only [parseLineChars]
    rw [if_neg hch, ih _ _ _ hrest]
    simp [insertRegions, buildRowFrom, List.append_assoc]

/-- The character loop on a line holding an illegal character: the error. -/
theorem parseLineChars_err (line : Nat) :
    ∀ (t : List Char) (col : Nat) (regions : List Region) (acc : List GridCell),
      (∃ ch ∈ t, ch ∈ ILLEGAL_REGION_CHARS) →
      parseLineChars line col regions acc t =
        .error "caractere non valide pour identifier une region" := by
  intro t
  induction t with
  | nil => intro col regions acc h; exact absurd h (by simp)
  | cons ch rest ih =>
    intro col regions acc h
    simp only [parseLineChars]
    by_cases hch : ch ∈ ILLEGAL_REGION_CHARS
    · rw [if_pos hch]
    · rw [if_neg hch]
      apply ih
      rcases h with ⟨c, hc, hcb⟩
      rcases List.mem_cons.mp hc with rfl | hc2
      · exact absurd hcb hch
      · exact ⟨c, hc2, hcb⟩

/-- parse_text_line on a legal line of acceptable length. -/
theorem parse_text_line_ok (p : GridParser) (t : List Char)
    (hleg : ∀ ch ∈ t, ch ∉ ILLEGAL_REGION_CHARS)
    (hlen : p.parsed_grid = [] ∨ (p.parsed_grid.headD []).length = t.length) :
    parse_text_line p t = .ok (GridParser.mk (insertRegions p.regions t)
      (p.parsed_grid ++ [buildRowFrom p.parsed_grid.length 0 t])) := by
  unfold parse_text_line
  rw [parseLineChars_ok _ _ _ _ _ hleg]
  have hcond : ¬ (p.parsed_grid ≠ [] ∧ (p.parsed_grid.headD []).length ≠
      (([] : List GridCell) ++ buildRowFrom p.parsed_grid.length 0 t).length) := by
    rcases hlen with h | h
    · intro hx; exact hx.1 h
    · intro hx; exact hx.2 (by rw [List.nil_append, buildRowFrom_length]; exact h)
  show (if p.parsed_grid ≠ [] ∧ (p.parsed_grid.headD []).length ≠
      (([] : List GridCell) ++ buildRowFrom p.parsed_grid.length 0 t).length then
      (Except.error "la ligne de la grille n a pas la meme longueur" :
        Except String GridParser)
    else Except.ok (GridParser.mk (insertRegions p.regions t)
      (p.parsed_grid ++ [[] ++ buildRowFrom p.parsed_grid.length 0 t]))) = _
  rw [if_neg hcond]
  simp

/-- parse_text_line on a line with an illegal character. -/
theorem parse_text_line_err_illegal (p : GridParser) (t : List Char)
    (hbad : ∃ ch ∈ t, ch ∈ ILLEGAL_REGION_CHARS) :
    parse_text_line p t = .error "caractere non valide pour identifier une region" := by
  unfold parse_text_line
  rw [parseLineChars_err _ _ _ _ _ hbad]

/-- parse_text_line on a legal line whose length differs from the first row. -/
theorem parse_text_line_err_len (p : GridParser) (t : List Char)
    (hleg : ∀ ch ∈ t, ch ∉ ILLEGAL_REGION_CHARS)
    (hne : p.parsed_grid ≠ [])
    (hlen : (p.parsed_grid.headD []).length ≠ t.length) :
    parse_text_line p t = .error "la ligne de la grille n a pas la meme longueur" := by
  unfold parse_text_line
  rw [parseLineChars_ok _ _ _ _ _ hleg]
  show (if p.parsed_grid ≠ [] ∧ (p.parsed_grid.headD []).length ≠
      (([] : List GridCell) ++ buildRowFrom p.parsed_grid.length 0 t).length then
      (Except.error "la ligne de la grille n a pas la meme longueur" :
        Except String GridParser)
    else Except.ok (GridParser.mk (insertRegions p.regions t)
      (p.parsed_grid ++ [[] ++ buildRowFrom p.parsed_grid.length 0 t]))) = _
  rw [if_pos ⟨hne, by rw [List.nil_append, buildRowFrom_length]; exact hlen⟩]

/-- The line loop equals the fold of parse_text_line over the useful lines. -/
theorem tryFromLines_eq_useful :
    ∀ (lines : List (List Char)) (p : GridParser),
      tryFromLines p lines = tryFromUseful p (usefulLines lines) := by
  intro lines
  induction lines with
  | nil => intro p; rfl
  | cons line rest ih =>
    intro p
    cases htr : trimChars line with
    | nil => simp [tryFromLines, usefulLines, htr, ih p]
    | cons c cs =>
      by_cases hc : c ∈ COMMENT_CHARS
      · simp [tryFromLines, usefulLines, htr, hc, ih p]
      · cases hpt : parse_text_line p (c :: cs) with
        | error e => simp [tryFromLines, usefulLines, htr, hc, hpt, tryFromUseful]
        | ok p2 => simp [tryFromLines, usefulLines, htr, hc, hpt, tryFromUseful, ih p2]

/-- The fold of parse_text_line succeeds on legal lines of consistent length,
producing the built state. -/
theorem tryFromUseful_ok :
    ∀ (useful : List (List Char)) (p : GridParser),
      (∀ t ∈ useful, ∀ ch ∈ t, ch ∉ ILLEGAL_REGION_CHARS) →
      (∀ t ∈ useful, t.length = lineLengthTarget p useful) →
      tryFromUseful p useful = .ok (GridParser.mk (insertRegionsAll p.regions useful)
        (p.parsed_grid ++ buildRowsFrom p.parsed_grid.length useful)) := by
  intro useful
  induction useful with
  | nil =>
    intro p _ _
    simp [tryFromUseful, insertRegionsAll, buildRowsFrom]
  | cons t rest ih =>
    intro p hleg hlen
    have hlegt : ∀ ch ∈ t, ch ∉ ILLEGAL_REGION_CHARS := hleg t (List.mem_cons_self t rest)
    have hlent : p.parsed_grid = [] ∨ (p.parsed_grid.headD []).length = t.length := by
      by_cases hp : p.parsed_grid = []
      · exact Or.inl hp
      · refine Or.inr ?x
        have h1 := hlen t (List.mem_cons_self t rest)
        simp [lineLengthTarget, List.isEmpty_iff, hp] at h1
        simpa using h1.symm
    have hlenrest : ∀ t2 ∈ rest, t2.length = lineLengthTarget
        (GridParser.mk (insertRegions p.regions t)
          (p.parsed_grid ++ [buildRowFrom p.parsed_grid.length 0 t])) rest := by
      intro t2 ht2
      have h2 := hlen t2 (List.mem_cons_of_mem t ht2)
      cases hpg : p.parsed_grid with
      | nil =>
        simp [lineLengthTarget, hpg] at h2
        simp [lineLengthTarget, hpg, buildRowFrom_length]
        exact h2
      | cons q qs =>
        simp [lineLengthTarget, hpg] at h2
        simp [lineLengthTarget, hpg]
        exact h2
    have hih := ih (GridParser.mk (insertRegions p.regions t)
      (p.parsed_grid ++ [buildRowFrom p.parsed_grid.length 0 t]))
      (fun t2 ht2 => hleg t2 (List.mem_cons_of_mem t ht2)) hlenrest
    simp only [tryFromUseful]
    rw [parse_text_line_ok p t hlegt hlent]
    show tryFromUseful (GridParser.mk (insertRegions p.regions t)
      (p.parsed_grid ++ [buildRowFrom p.parsed_grid.length 0 t])) rest = _
    rw [hih]
    simp [insertRegionsAll, buildRowsFrom, List.append_assoc]

/-- A successful fold of parse_text_line forces every line legal and of the
expected length. -/
theorem tryFromUseful_ok_conditions :
    ∀ (useful : List (List Char)) (p p2 : GridParser),
      tryFromUseful p useful = .ok p2 →
      (∀ t ∈ useful, ∀ ch ∈ t, ch ∉ ILLEGAL_REGION_CHARS) ∧
      (∀ t ∈ useful, t.length = lineLengthTarget p useful) := by
  intro useful
  induction useful with
  | nil => intro p p2 _; exact ⟨by simp, by simp⟩
  | cons t rest ih =>
    intro p p2 hok
    by_cases hlegt : ∀ ch ∈ t, ch ∉ ILLEGAL_REGION_CHARS
    case neg =>
      exfalso
      have hbad : ∃ ch ∈ t, ch ∈ ILLEGAL_REGION_CHARS := by
        push_neg at hlegt
        simpa using hlegt
      have he := parse_text_line_err_illegal p t hbad
      simp [tryFromUseful, he] at hok
    case pos =>
    have hlent : p.parsed_grid = [] ∨ (p.parsed_grid.headD []).length = t.length := by
      by_cases hp : p.parsed_grid = []
      · exact Or.inl hp
      · refine Or.inr ?x
        by_contra hne
        have he := parse_text_line_err_len p t hlegt hp hne
        simp [tryFromUseful, he] at hok
    have hpt := parse_text_line_ok p t hlegt hlent
    have hok2 : tryFromUseful (GridParser.mk (insertRegions p.regions t)
        (p.parsed_grid ++ [buildRowFrom p.parsed_grid.length 0 t])) rest = .ok p2 := by
      simp only [tryFromUseful] at hok
      rw [hpt] at hok
      exact hok
    have hrest := ih _ _ hok2
    refine ⟨?leg, ?len⟩
    · intro t2 ht2
      rcases List.mem_cons.mp ht2 with rfl | h2
      · exact hlegt
      · exact hrest.1 t2 h2
    · intro t2 ht2
      rcases List.mem_cons.mp ht2 with rfl | h2
      · by_cases hpg : p.parsed_grid = []
        · simp [lineLengthTarget, hpg]
        · rcases hlent with h | h
          · exact absurd h hpg
          · simp [lineLengthTarget, List.isEmpty_iff, hpg]
            simpa using h.symm
      · have h3 := hrest.2 t2 h2
        cases hpg : p.parsed_grid with
        | nil =>
          simp [lineLengthTarget, hpg, buildRowFrom_length] at h3
          simp [lineLengthTarget, hpg]
          exact h3
        | cons q qs =>
          simp [lineLengthTarget, hpg] at h3
          simp [lineLengthTarget, hpg]
          exact h3

/-- Every useful line is nonempty (trimming left at least one character). -/
theorem usefulLines_ne_nil :
    ∀ (lines : List (List Char)), ∀ t ∈ usefulLines lines, t ≠ [] := by
  intro lines
  induction lines with
  | nil => simp [usefulLines]
  | cons line rest ih =>
    cases htr : trimChars line with
    | nil => simpa [usefulLines, htr] using ih
    | cons c cs =>
      by_cases hc : c ∈ COMMENT_CHARS
      · simpa [usefulLines, htr, hc] using ih
      · intro t ht
        have ht2 : t ∈ (c :: cs) :: usefulLines rest := by
          simpa [usefulLines, htr, hc] using ht
        rcases List.mem_cons.mp ht2 with rfl | h2
        · simp
        · exact ih t h2

/-- Folding region labels never empties a nonempty accumulator. -/
theorem insertRegions_ne_nil :
    ∀ (t : List Char) (acc : List Region), acc ≠ [] → insertRegions acc t ≠ [] := by
  intro t
  induction t with
  | nil => intro acc h; simpa [insertRegions] using h
  | cons ch rest ih =>
    intro acc h
    show insertRegions (if ch ∈ acc then acc else acc ++ [ch]) rest ≠ []
    apply ih
    by_cases hm : ch ∈ acc
    · rw [if_pos hm]; exact h
    · rw [if_neg hm]; simp

/-- A nonempty line contributes at least one region label. -/
theorem insertRegions_cons_ne_nil (c : Char) (cs : List Char) :
    insertRegions [] (c :: cs) ≠ [] := by
  have he : insertRegions [] (c :: cs) = insertRegions [c] cs := by
    simp [insertRegions]
  rw [he]
  exact insertRegions_ne_nil cs [c] (by simp)

/-- Folding region labels over lines never empties a nonempty accumulator. -/
theorem insertRegionsAll_ne_nil :
    ∀ (useful : List (List Char)) (acc : List Region),
      acc ≠ [] → insertRegionsAll acc useful ≠ [] := by
  intro useful
  induction useful with
  | nil => intro acc h; simpa [insertRegionsAll] using h
  | cons t rest ih =>
    intro acc h
    show insertRegionsAll (insertRegions acc t) rest ≠ []
    exact ih _ (insertRegions_ne_nil t acc h)

/-- The built parser of a nonempty useful list with a nonempty first line has
at least one region. -/
theorem builtParser_regions_ne_nil (t : List Char) (rest : List (List Char))
    (ht : t ≠ []) : (builtParser (t :: rest)).regions ≠ [] := by
  rcases t with _ | ⟨c, cs⟩
  · exact absurd rfl ht
  · show insertRegionsAll (insertRegions [] (c :: cs)) rest ≠ []
    exact insertRegionsAll_ne_nil rest _ (insertRegions_cons_ne_nil c cs)

/-- The region loop of the checker succeeds exactly when every listed region
is a consistent block. -/
theorem checkerCheckList_ok_iff (p : GridParser) :
    ∀ (rs : List Region), checkerCheckList p rs = .ok () ↔
      ∀ r ∈ rs, region_ok p r = true := by
  intro rs
  induction rs with
  | nil => simp [checkerCheckList]
  | cons r rest ih =>
    by_cases hr : region_ok p r = true
    · simp [checkerCheckList, hr, ih]
    · simp [checkerCheckList, hr]

/-- C9: GridParser::try_from succeeds if and only if, after discarding lines
that are empty after trimming or that start with a comment character, at
least one row remains, every row has the first row's length, no row holds a
space, tab, CR or LF as a region label, and every region of the resulting
grid is 4-connected; in every other case it returns an error. -/
theorem C9_try_from_ok_iff (lines : List (List Char)) :
    (∃ p, GridParser.try_from lines = .ok p) ↔
      (usefulLines lines ≠ [] ∧
       (∀ t ∈ usefulLines lines, t.length = ((usefulLines lines).headD []).length) ∧
       (∀ t ∈ usefulLines lines, ∀ ch ∈ t, ch ∉ ILLEGAL_REGION_CHARS) ∧
       ∀ r ∈ (builtParser (usefulLines lines)).regions,
         region_ok (builtParser (usefulLines lines)) r = true) := by
  unfold GridParser.try_from
  rw [tryFromLines_eq_useful]
  generalize huseful : usefulLines lines = useful
  constructor
  · rintro ⟨p2, hp2⟩
    revert hp2
    cases htf : tryFromUseful (GridParser.mk [] []) useful with
    | error e => intro hp2; exact Except.noConfusion hp2
    | ok p0 =>
      intro hp2
      obtain ⟨hleg, hlens⟩ := tryFromUseful_ok_conditions useful _ _ htf
      have hlens2 : ∀ t ∈ useful, t.length = (useful.headD []).length := by
        intro t ht
        simpa [lineLengthTarget] using hlens t ht
      have hbuilt := tryFromUseful_ok useful (GridParser.mk [] []) hleg hlens
      rw [htf] at hbuilt
      have hp0 : p0 = builtParser useful := by
        have hmk := Except.ok.inj hbuilt
        simp [builtParser, hmk]
      have hp2b : (if (p0.regions.isEmpty || p0.parsed_grid.isEmpty) = true then
          (Except.error "la grille n a aucune region definie" : Except String GridParser)
        else match checkerCheck p0 with
          | .error e => Except.error e
          | .ok _ => Except.ok p0) = Except.ok p2 := hp2
      subst hp0
      by_cases hre : ((builtParser useful).regions.isEmpty ||
          (builtParser useful).parsed_grid.isEmpty) = true
      · rw [if_pos hre] at hp2b
        exact Except.noConfusion hp2b
      · rw [if_neg hre] at hp2b
        have hne : useful ≠ [] := by
          intro h0
          apply hre
          rw [h0]
          decide
        refine ⟨hne, hlens2, hleg, ?conn⟩
        revert hp2b
        cases hcc : checkerCheck (builtParser useful) with
        | error e => intro hp2b; exact Except.noConfusion hp2b
        | ok u =>
          intro _
          cases u
          exact (checkerCheckList_ok_iff (builtParser useful)
            (builtParser useful).regions).mp hcc
  · rintro ⟨hne, hlens, hleg, hconn⟩
    have hlens0 : ∀ t ∈ useful, t.length = lineLengthTarget (GridParser.mk [] []) useful := by
      intro t ht
      simpa [lineLengthTarget] using hlens t ht
    have hok2 : tryFromUseful (GridParser.mk [] []) useful = .ok (builtParser useful) := by
      rw [tryFromUseful_ok useful (GridParser.mk [] []) hleg hlens0]
      simp [builtParser]
    rw [hok2]
    refine ⟨builtParser useful, ?e⟩
    have hre : ((builtParser useful).regions.isEmpty ||
        (builtParser useful).parsed_grid.isEmpty) = false := by
      cases huse2 : useful with
      | nil => exact absurd huse2 hne
      | cons t rest =>
        have ht : t ≠ [] := by
          apply usefulLines_ne_nil lines
          rw [huseful, huse2]
          exact List.mem_cons_self t rest
        rw [Bool.or_eq_false_iff]
        constructor
        · have hr2 := builtParser_regions_ne_nil t rest ht
          rcases hregs : (builtParser (t :: rest)).regions with _ | ⟨a, as⟩
          · exact absurd hregs hr2
          · rfl
        · rfl
    have hcc : checkerCheck (builtParser useful) = .ok () :=
      (checkerCheckList_ok_iff (builtParser useful) (builtParser useful).regions).mpr hconn
    show (if ((builtParser useful).regions.isEmpty ||
        (builtParser useful).parsed_grid.isEmpty) = true then
        (Except.error "la grille n a aucune region definie" : Except String GridParser)
      else match checkerCheck (builtParser useful) with
        | .error e => Except.error e
        | .ok _ => Except.ok (builtParser useful)) = Except.ok (builtParser useful)
    rw [if_neg (by simp [hre]), hcc]

/-- C9 witness: a well-formed descriptor with a comment line and a blank line
parses successfully, as the right-hand side of the characterization holds. -/
theorem C9_witness :
    ∃ p, GridParser.try_from
      [['#', ' ', 'e', 'x'],
       [' '],
       ['A','B','B','B','B'],
       ['A','B','B','B','B'],
       ['C','C','B','B','B'],
       ['D','D','D','D','D'],
       ['D','E','E','E','D']] = .ok p :=
  (C9_try_from_ok_iff _).mpr (by decide)

end StarBattle
